import Mathlib

/-! # GamePlay, Direct3D 12 graphics backend

A shallow embedding of `gameplay/src/d3d12/GraphicsD3D12.cpp` and the properties
its specification states about it.

* Enumerations of the engine and of the Direct3D SDK are inductive types, or
  natural numbers where the code combines them with bitwise operators.
* The member fields of `GraphicsD3D12` that the functions read and write form the
  record `GraphicsD3D12`; a member function is a function from the record to the
  record.
* The Direct3D runtime is a record of functions (`Backend`, and `Factory` for the
  calls of the initialization); every call issued to it, the release of a native
  handle included, is appended to the trace carried by the device record.
* A fatal error or a failed assertion ends a function with a `Failure`.
* Machine integers are natural numbers and integers; where the source converts
  between integer types, or an operation can wrap around, the reduction modulo
  2 ^ w is explicit (`size_t` and UINT64 have 64 bits, `int` and UINT 32).
-/

namespace gameplay

/-! ## Native resource states (`D3D12_RESOURCE_STATES`, d3d12.h of the Windows SDK) -/

def D3D12_RESOURCE_STATE_COMMON : Nat := 0x0
def D3D12_RESOURCE_STATE_VERTEX_AND_CONSTANT_BUFFER : Nat := 0x1
def D3D12_RESOURCE_STATE_INDEX_BUFFER : Nat := 0x2
def D3D12_RESOURCE_STATE_RENDER_TARGET : Nat := 0x4
def D3D12_RESOURCE_STATE_UNORDERED_ACCESS : Nat := 0x8
def D3D12_RESOURCE_STATE_DEPTH_WRITE : Nat := 0x10
def D3D12_RESOURCE_STATE_NON_PIXEL_SHADER_RESOURCE : Nat := 0x40
def D3D12_RESOURCE_STATE_PIXEL_SHADER_RESOURCE : Nat := 0x80
def D3D12_RESOURCE_STATE_COPY_DEST : Nat := 0x400
def D3D12_RESOURCE_STATE_COPY_SOURCE : Nat := 0x800
def D3D12_RESOURCE_STATE_RESOLVE_DEST : Nat := 0x1000
def D3D12_RESOURCE_STATE_RESOLVE_SOURCE : Nat := 0x2000
def D3D12_RESOURCE_STATE_GENERIC_READ : Nat := 0xAC3

/-! ## Texture usage flags -/

/-- Modelled from the spec: the enumerators of `Texture::Usage`, declared in
Texture.h, which is not among the sources. The spec calls the usage a bitmask of
transfer-src/dst, sampled, storage, color-attachment, depth-stencil-attachment and
resolve-src/dst; the numeric value of each enumerator is a field of this record. -/
structure TextureUsage where
  USAGE_TRANSFER_SRC : Nat
  USAGE_TRANSFER_DST : Nat
  USAGE_SAMPLED_IMAGE : Nat
  USAGE_STORAGE : Nat
  USAGE_COLOR_ATTACHMENT : Nat
  USAGE_DEPTH_STENCIL_ATTACHMENT : Nat
  USAGE_RESOLVE_SRC : Nat
  USAGE_RESOLVE_DST : Nat
  deriving Repr, DecidableEq

/-- A usage enumerator that is one bit of the mask. -/
def IsUsageBit (flag : Nat) : Prop := ∃ k : Nat, flag = 2 ^ k

/-- Every usage enumerator is a single bit, which is what the spec's word
"bitmask" says of them. -/
structure TextureUsage.SingleBits (u : TextureUsage) : Prop where
  transferSrc : IsUsageBit u.USAGE_TRANSFER_SRC
  transferDst : IsUsageBit u.USAGE_TRANSFER_DST
  sampledImage : IsUsageBit u.USAGE_SAMPLED_IMAGE
  storage : IsUsageBit u.USAGE_STORAGE
  colorAttachment : IsUsageBit u.USAGE_COLOR_ATTACHMENT
  depthStencilAttachment : IsUsageBit u.USAGE_DEPTH_STENCIL_ATTACHMENT
  resolveSrc : IsUsageBit u.USAGE_RESOLVE_SRC
  resolveDst : IsUsageBit u.USAGE_RESOLVE_DST

/-- Modelled from the spec: one assignment of the `Texture::Usage` enumerators,
the eight usages in the order the spec lists them, one bit each. -/
def usageBits : TextureUsage where
  USAGE_TRANSFER_SRC := 0x1
  USAGE_TRANSFER_DST := 0x2
  USAGE_SAMPLED_IMAGE := 0x4
  USAGE_STORAGE := 0x8
  USAGE_COLOR_ATTACHMENT := 0x10
  USAGE_DEPTH_STENCIL_ATTACHMENT := 0x20
  USAGE_RESOLVE_SRC := 0x40
  USAGE_RESOLVE_DST := 0x80

/-- `GraphicsD3D12::toResourceStates`: the source tests each usage enumerator with
`FLAG == (usage & FLAG)` and ORs the native state into `result`. -/
def toResourceStates (u : TextureUsage) (usage : Nat) : Nat :=
  let result := D3D12_RESOURCE_STATE_COMMON
  let result := if u.USAGE_TRANSFER_SRC = (usage &&& u.USAGE_TRANSFER_SRC)
    then result ||| D3D12_RESOURCE_STATE_COPY_SOURCE else result
  let result := if u.USAGE_TRANSFER_DST = (usage &&& u.USAGE_TRANSFER_DST)
    then result ||| D3D12_RESOURCE_STATE_COPY_DEST else result
  let result := if u.USAGE_SAMPLED_IMAGE = (usage &&& u.USAGE_SAMPLED_IMAGE)
    then result ||| (D3D12_RESOURCE_STATE_PIXEL_SHADER_RESOURCE
      ||| D3D12_RESOURCE_STATE_NON_PIXEL_SHADER_RESOURCE) else result
  let result := if u.USAGE_STORAGE = (usage &&& u.USAGE_STORAGE)
    then result ||| D3D12_RESOURCE_STATE_UNORDERED_ACCESS else result
  let result := if u.USAGE_COLOR_ATTACHMENT = (usage &&& u.USAGE_COLOR_ATTACHMENT)
    then result ||| D3D12_RESOURCE_STATE_RENDER_TARGET else result
  let result :=
    if u.USAGE_DEPTH_STENCIL_ATTACHMENT = (usage &&& u.USAGE_DEPTH_STENCIL_ATTACHMENT)
    then result ||| D3D12_RESOURCE_STATE_DEPTH_WRITE else result
  let result := if u.USAGE_RESOLVE_SRC = (usage &&& u.USAGE_RESOLVE_SRC)
    then result ||| D3D12_RESOURCE_STATE_RESOLVE_SOURCE else result
  let result := if u.USAGE_RESOLVE_DST = (usage &&& u.USAGE_RESOLVE_DST)
    then result ||| D3D12_RESOURCE_STATE_RESOLVE_DEST else result
  result

/-- The table of the specification: each usage enumerator with the native state it
contributes. -/
def usageContributions (u : TextureUsage) : List (Nat × Nat) :=
  [ (u.USAGE_TRANSFER_SRC, D3D12_RESOURCE_STATE_COPY_SOURCE),
    (u.USAGE_TRANSFER_DST, D3D12_RESOURCE_STATE_COPY_DEST),
    (u.USAGE_SAMPLED_IMAGE,
      D3D12_RESOURCE_STATE_PIXEL_SHADER_RESOURCE
        ||| D3D12_RESOURCE_STATE_NON_PIXEL_SHADER_RESOURCE),
    (u.USAGE_STORAGE, D3D12_RESOURCE_STATE_UNORDERED_ACCESS),
    (u.USAGE_COLOR_ATTACHMENT, D3D12_RESOURCE_STATE_RENDER_TARGET),
    (u.USAGE_DEPTH_STENCIL_ATTACHMENT, D3D12_RESOURCE_STATE_DEPTH_WRITE),
    (u.USAGE_RESOLVE_SRC, D3D12_RESOURCE_STATE_RESOLVE_SOURCE),
    (u.USAGE_RESOLVE_DST, D3D12_RESOURCE_STATE_RESOLVE_DEST) ]

/-- The specification of `toResourceStates`, in its words: the OR, over the usage
bits set in the mask, of the contribution of each. -/
def toResourceStatesSpec (u : TextureUsage) (usage : Nat) : Nat :=
  (((usageContributions u).filter (fun p => decide (usage &&& p.1 ≠ 0))).map
    Prod.snd).foldr (fun state acc => state ||| acc) 0

/-- What one `if` of the source adds to `result`. -/
def usageContribution (flag state usage : Nat) : Nat :=
  if flag = (usage &&& flag) then state else 0

/-! ## Pixel formats and sample counts -/

/-- Modelled from the spec: the logical pixel format `Format`, declared in Format.h,
which is not among the sources. Its constructors are the undefined sentinel, the
enumerators that `GraphicsD3D12.cpp` names, and `other raw` for every value of the
C++ enumeration type that is none of these (`raw` being the integer it holds). -/
inductive Format where
  | FORMAT_UNDEFINED
  | FORMAT_R8_UNORM
  | FORMAT_R16_UNORM
  | FORMAT_R16_FLOAT
  | FORMAT_R32_UINT
  | FORMAT_R32_FLOAT
  | FORMAT_R8G8_UNORM
  | FORMAT_R16G16_UNORM
  | FORMAT_R16G16_FLOAT
  | FORMAT_R32G32_UINT
  | FORMAT_R32G32_FLOAT
  | FORMAT_R32G32B32_UINT
  | FORMAT_R32G32B32_FLOAT
  | FORMAT_B8G8R8A8_UNORM
  | FORMAT_R8G8B8A8_UNORM
  | FORMAT_R16G16B16A16_UNORM
  | FORMAT_R16G16B16A16_FLOAT
  | FORMAT_R32G32B32A32_UINT
  | FORMAT_R32G32B32A32_FLOAT
  | FORMAT_D16_UNORM
  | FORMAT_X8_D24_UNORM_PACK32
  | FORMAT_D32_FLOAT
  | FORMAT_D24_UNORM_S8_UINT
  | FORMAT_D32_FLOAT_S8_UINT
  | other (raw : Nat)
  deriving DecidableEq, Repr

/-- The native formats of `DXGI_FORMAT` (dxgiformat.h of the Windows SDK) that the
source names; distinct enumerators are distinct values there. -/
inductive DXGI_FORMAT where
  | DXGI_FORMAT_UNKNOWN
  | DXGI_FORMAT_R16_UINT
  | DXGI_FORMAT_R8_UNORM
  | DXGI_FORMAT_R16_UNORM
  | DXGI_FORMAT_R16_FLOAT
  | DXGI_FORMAT_R32_UINT
  | DXGI_FORMAT_R32_FLOAT
  | DXGI_FORMAT_R8G8_UNORM
  | DXGI_FORMAT_R16G16_UNORM
  | DXGI_FORMAT_R16G16_FLOAT
  | DXGI_FORMAT_R32G32_UINT
  | DXGI_FORMAT_R32G32_FLOAT
  | DXGI_FORMAT_R32G32B32_UINT
  | DXGI_FORMAT_R32G32B32_FLOAT
  | DXGI_FORMAT_B8G8R8A8_UNORM
  | DXGI_FORMAT_R8G8B8A8_UNORM
  | DXGI_FORMAT_R16G16B16A16_UNORM
  | DXGI_FORMAT_R16G16B16A16_FLOAT
  | DXGI_FORMAT_R32G32B32A32_UINT
  | DXGI_FORMAT_R32G32B32A32_FLOAT
  | DXGI_FORMAT_D16_UNORM
  | DXGI_FORMAT_X32_TYPELESS_G8X24_UINT
  | DXGI_FORMAT_D32_FLOAT
  | DXGI_FORMAT_D24_UNORM_S8_UINT
  | DXGI_FORMAT_D32_FLOAT_S8X24_UINT
  deriving DecidableEq, Repr

open Format DXGI_FORMAT

/-- `GraphicsD3D12::toFormat`: `result` starts as `DXGI_FORMAT_UNKNOWN`, each case
of the switch assigns and breaks, and there is no default case. -/
def toFormat (pixelFormat : Format) : DXGI_FORMAT :=
  let result := DXGI_FORMAT_UNKNOWN
  match pixelFormat with
  | FORMAT_R8_UNORM => DXGI_FORMAT_R8_UNORM
  | FORMAT_R16_UNORM => DXGI_FORMAT_R16_UNORM
  | FORMAT_R16_FLOAT => DXGI_FORMAT_R16_FLOAT
  | FORMAT_R32_UINT => DXGI_FORMAT_R32_UINT
  | FORMAT_R32_FLOAT => DXGI_FORMAT_R32_FLOAT
  | FORMAT_R8G8_UNORM => DXGI_FORMAT_R8G8_UNORM
  | FORMAT_R16G16_UNORM => DXGI_FORMAT_R16G16_UNORM
  | FORMAT_R16G16_FLOAT => DXGI_FORMAT_R16G16_FLOAT
  | FORMAT_R32G32_UINT => DXGI_FORMAT_R32G32_UINT
  | FORMAT_R32G32_FLOAT => DXGI_FORMAT_R32G32_FLOAT
  | FORMAT_R32G32B32_UINT => DXGI_FORMAT_R32G32B32_UINT
  | FORMAT_R32G32B32_FLOAT => DXGI_FORMAT_R32G32B32_FLOAT
  | FORMAT_B8G8R8A8_UNORM => DXGI_FORMAT_B8G8R8A8_UNORM
  | FORMAT_R8G8B8A8_UNORM => DXGI_FORMAT_R8G8B8A8_UNORM
  | FORMAT_R16G16B16A16_UNORM => DXGI_FORMAT_R16G16B16A16_UNORM
  | FORMAT_R16G16B16A16_FLOAT => DXGI_FORMAT_R16G16B16A16_FLOAT
  | FORMAT_R32G32B32A32_UINT => DXGI_FORMAT_R32G32B32A32_UINT
  | FORMAT_R32G32B32A32_FLOAT => DXGI_FORMAT_R32G32B32A32_FLOAT
  | FORMAT_D16_UNORM => DXGI_FORMAT_D16_UNORM
  | FORMAT_X8_D24_UNORM_PACK32 => DXGI_FORMAT_X32_TYPELESS_G8X24_UINT
  | FORMAT_D32_FLOAT => DXGI_FORMAT_D32_FLOAT
  | FORMAT_D24_UNORM_S8_UINT => DXGI_FORMAT_D24_UNORM_S8_UINT
  | FORMAT_D32_FLOAT_S8_UINT => DXGI_FORMAT_D32_FLOAT_S8X24_UINT
  | _ => result

/-- The logical formats that have a case in the switch of `toFormat`, in the order
of the source. -/
def handledFormats : List Format :=
  [ FORMAT_R8_UNORM,
    FORMAT_R16_UNORM,
    FORMAT_R16_FLOAT,
    FORMAT_R32_UINT,
    FORMAT_R32_FLOAT,
    FORMAT_R8G8_UNORM,
    FORMAT_R16G16_UNORM,
    FORMAT_R16G16_FLOAT,
    FORMAT_R32G32_UINT,
    FORMAT_R32G32_FLOAT,
    FORMAT_R32G32B32_UINT,
    FORMAT_R32G32B32_FLOAT,
    FORMAT_B8G8R8A8_UNORM,
    FORMAT_R8G8B8A8_UNORM,
    FORMAT_R16G16B16A16_UNORM,
    FORMAT_R16G16B16A16_FLOAT,
    FORMAT_R32G32B32A32_UINT,
    FORMAT_R32G32B32A32_FLOAT,
    FORMAT_D16_UNORM,
    FORMAT_X8_D24_UNORM_PACK32,
    FORMAT_D32_FLOAT,
    FORMAT_D24_UNORM_S8_UINT,
    FORMAT_D32_FLOAT_S8_UINT ]

/-- Modelled from the spec: the sample-count enumeration `Texture::SampleCount`,
declared in Texture.h, which is not among the sources: the five enumerators the
source names, and `other raw` for every other value of the enumeration type. -/
inductive SampleCount where
  | SAMPLE_COUNT_1X
  | SAMPLE_COUNT_2X
  | SAMPLE_COUNT_4X
  | SAMPLE_COUNT_8X
  | SAMPLE_COUNT_16X
  | other (raw : Nat)
  deriving DecidableEq, Repr

open SampleCount

/-- `GraphicsD3D12::toSamples`. No case of the switch ends in `break`, so control
enters at the matching label and runs every assignment `result = v` from there to
the end of the switch; the list holds those assignments in order, the fold runs
them. A value with no label skips the switch. -/
def toSamples (sampleCount : SampleCount) : Nat :=
  let result := 1
  match sampleCount with
  | SAMPLE_COUNT_1X => [1, 2, 4, 8, 16].foldl (fun _ v => v) result
  | SAMPLE_COUNT_2X => [2, 4, 8, 16].foldl (fun _ v => v) result
  | SAMPLE_COUNT_4X => [4, 8, 16].foldl (fun _ v => v) result
  | SAMPLE_COUNT_8X => [8, 16].foldl (fun _ v => v) result
  | SAMPLE_COUNT_16X => [16].foldl (fun _ v => v) result
  | SampleCount.other _ => result

/-! ## The Direct3D runtime -/

/-- `D3D12_RESOURCE_DIMENSION`. -/
inductive D3D12_RESOURCE_DIMENSION where
  | D3D12_RESOURCE_DIMENSION_BUFFER
  | D3D12_RESOURCE_DIMENSION_TEXTURE1D
  | D3D12_RESOURCE_DIMENSION_TEXTURE2D
  | D3D12_RESOURCE_DIMENSION_TEXTURE3D
  deriving DecidableEq, Repr

/-- `D3D12_TEXTURE_LAYOUT`. -/
inductive D3D12_TEXTURE_LAYOUT where
  | D3D12_TEXTURE_LAYOUT_UNKNOWN
  | D3D12_TEXTURE_LAYOUT_ROW_MAJOR
  deriving DecidableEq, Repr

/-- `D3D12_HEAP_TYPE`. -/
inductive D3D12_HEAP_TYPE where
  | D3D12_HEAP_TYPE_DEFAULT
  | D3D12_HEAP_TYPE_UPLOAD
  deriving DecidableEq, Repr

open D3D12_RESOURCE_DIMENSION D3D12_TEXTURE_LAYOUT D3D12_HEAP_TYPE

def D3D12_RESOURCE_FLAG_NONE : Nat := 0x0
def D3D12_RESOURCE_FLAG_ALLOW_RENDER_TARGET : Nat := 0x1
def D3D12_RESOURCE_FLAG_ALLOW_DEPTH_STENCIL : Nat := 0x2

/-- `D3D12_RESOURCE_DESC`, with `SampleDesc` flattened into its two members. Widths
of the members: `Width` is a UINT64, `Height` a UINT, `DepthOrArraySize` and
`MipLevels` are UINT16. -/
structure D3D12_RESOURCE_DESC where
  Dimension : D3D12_RESOURCE_DIMENSION
  Alignment : Nat
  Width : Nat
  Height : Nat
  DepthOrArraySize : Nat
  MipLevels : Nat
  Format : DXGI_FORMAT
  SampleDescCount : Nat
  SampleDescQuality : Nat
  Layout : D3D12_TEXTURE_LAYOUT
  Flags : Nat
  deriving DecidableEq, Repr

/-- `DXGI_SWAP_CHAIN_DESC1`, the members that `onInitialize` sets, with `SampleDesc`
flattened. `Width`, `Height` and the counts are UINTs. -/
structure DXGI_SWAP_CHAIN_DESC1 where
  BufferCount : Nat
  Width : Nat
  Height : Nat
  Format : DXGI_FORMAT
  BufferUsage : Nat
  SwapEffect : Nat
  SampleDescCount : Nat
  deriving DecidableEq, Repr

/-- A call that the backend issues to the Direct3D runtime, or a `Release` of a
native handle. Handles are natural numbers; a null pointer is `none`. -/
inductive Call where
  | GetCopyableFootprints (desc : D3D12_RESOURCE_DESC)
  | CreateCommittedResource (heap : D3D12_HEAP_TYPE) (desc : D3D12_RESOURCE_DESC) (states : Nat)
  | Map (resource : Nat)
  | Release (handle : Nat)
  | GetDesc
  | ResizeBuffers (count : Nat) (width height : Int)
  | GetCurrentBackBufferIndex
  | GetDescriptorHandleIncrementSize
  | GetCPUDescriptorHandleForHeapStart
  | GetBuffer (index : Nat)
  | CreateRenderTargetView (resource : Option Nat) (descriptor : Nat)
  | Present (syncInterval flags : Nat)
  | Signal (fence : Option Nat) (value : Nat)
  | D3D12GetDebugInterface
  | EnableDebugLayer
  | CreateDXGIFactory2 (flags : Nat)
  | EnumAdapters1 (adapterIndex : Nat)
  | GetDesc1 (adapter : Nat)
  | D3D12CreateDevice (adapter : Option Nat)
  | D3D12CreateDevice_probe (adapter : Nat)
  | CreateCommandQueue
  | EnumAdapters (index : Nat)
  | EnumOutputs (index : Nat)
  | GetDisplayModeList
  | CreateSwapChainForHwnd (hwnd : Option Nat) (desc : DXGI_SWAP_CHAIN_DESC1)
  | QueryInterface (swapchain : Nat)
  | CreateDescriptorHeap (numDescriptors : Nat)
  deriving DecidableEq, Repr

/-- The Direct3D runtime as the source sees it: what each call returns. A call whose
answer may depend on what happened before takes the trace of the calls issued so
far. A failed `HRESULT` is `none` (or `false`). -/
structure Backend where
  GetCopyableFootprints : D3D12_RESOURCE_DESC → Nat
  CreateCommittedResource :
    List Call → D3D12_HEAP_TYPE → D3D12_RESOURCE_DESC → Nat → Option Nat
  Map : List Call → Nat → Option Nat
  GetGPUVirtualAddress : Nat → Nat
  ResizeBuffers : List Call → Nat → Int → Int → Bool
  GetCurrentBackBufferIndex : List Call → Nat
  GetDescriptorHandleIncrementSize : Nat
  GetCPUDescriptorHandleForHeapStart : Nat
  GetBuffer : List Call → Nat → Option Nat

/-- How a member function ends when it does not return: `GP_ERROR` and a failed
`D3D_CHECK_RESULT` are fatal, a failed `GP_ASSERT` is a precondition violation. -/
inductive Failure where
  | fatal (message : String)
  | precondition
  deriving DecidableEq, Repr

/-- Modelled from the spec: the two configuration macros of Graphics.h, which is not
among the sources: the number of swapchain images and the mip-level sentinel. -/
structure GraphicsConstants where
  GP_GRAPHICS_SWAPCHAIN_IMAGE_COUNT : Nat
  GP_GRAPHICS_MIP_LEVELS_MAX : Nat
  deriving DecidableEq, Repr

/-- `DXGI_MODE_DESC`, the two members the source reads, both of the type UINT. -/
structure DXGI_MODE_DESC where
  Width : Nat
  Height : Nat
  deriving DecidableEq, Repr

/-- The member fields of `GraphicsD3D12` that the embedded functions read or write,
and `calls`, the trace of what the device has asked of the runtime. -/
structure GraphicsD3D12 where
  initialized : Bool
  resized : Bool
  width : Int
  height : Int
  fullscreen : Bool
  vsync : Bool
  multisampling : Nat
  validation : Bool
  hwnd : Option Nat
  displayModes : List DXGI_MODE_DESC
  displayMode : Nat
  device : Option Nat
  queue : Option Nat
  swapchain : Option Nat
  swapchainImagesViewHeap : Option Nat
  swapchainImagesViewDescriptorSize : Nat
  swapchainImages : List (Option Nat)
  swapchainImageIndex : Nat
  fences : List (Option Nat)
  fenceValues : List Nat
  fenceValueCurrent : Nat
  calls : List Call
  deriving DecidableEq, Repr

/-! ## Buffers -/

/-- Modelled from the spec: `Buffer::Usage`, declared in Buffer.h, which is not among
the sources: the three usage kinds, and `other raw` for every other value. -/
inductive BufferUsage where
  | USAGE_VERTEX
  | USAGE_INDEX
  | USAGE_UNIFORM
  | other (raw : Nat)
  deriving DecidableEq, Repr

structure D3D12_VERTEX_BUFFER_VIEW where
  BufferLocation : Nat
  SizeInBytes : Nat
  StrideInBytes : Nat
  deriving DecidableEq, Repr

structure D3D12_INDEX_BUFFER_VIEW where
  BufferLocation : Nat
  SizeInBytes : Nat
  Format : DXGI_FORMAT
  deriving DecidableEq, Repr

structure D3D12_CONSTANT_BUFFER_VIEW_DESC where
  BufferLocation : Nat
  SizeInBytes : Nat
  deriving DecidableEq, Repr

/-- Modelled from the spec: the class `BufferD3D12`, declared in BufferD3D12.h, which
is not among the sources. The fields are the spec's buffer (usage kind, byte size,
stride, host visibility, mapped host pointer), the native handle and the three views
the source writes. -/
structure BufferD3D12 where
  usage : BufferUsage
  size : Nat
  stride : Nat
  hostVisible : Bool
  device : Option Nat
  buffer : Option Nat
  hostMemory : Option Nat
  vertexBufferView : D3D12_VERTEX_BUFFER_VIEW
  indexBufferView : D3D12_INDEX_BUFFER_VIEW
  constantBufferView : D3D12_CONSTANT_BUFFER_VIEW_DESC
  deriving DecidableEq, Repr

/-- Modelled from the spec: the constructor of `BufferD3D12`; it records its
arguments (usage, size, stride, hostVisible, device, buffer) and leaves the host
pointer null and the views zeroed. -/
def BufferD3D12.make (usage : BufferUsage) (size stride : Nat) (hostVisible : Bool)
    (device buffer : Option Nat) : BufferD3D12 where
  usage := usage
  size := size
  stride := stride
  hostVisible := hostVisible
  device := device
  buffer := buffer
  hostMemory := none
  vertexBufferView := ⟨0, 0, 0⟩
  indexBufferView := ⟨0, 0, DXGI_FORMAT_UNKNOWN⟩
  constantBufferView := ⟨0, 0⟩

/-- Modelled from the spec: the macro `GP_MATH_ROUNDUP` of Base.h, which is not among
the sources; the spec says that it rounds the size up to the next multiple of its
second argument. The value is the one of unbounded arithmetic; the type in which the
source evaluates the macro is applied where the macro is used. -/
def GP_MATH_ROUNDUP (x multiple : Nat) : Nat :=
  ((x + multiple - 1) / multiple) * multiple

/-- The resource descriptor that `createBuffer` hands to `GetCopyableFootprints`
(lines 361 to 384 of the source). The parameter `size` is a `size_t`, of 64 bits, and
`Width` is a UINT64: the rounding of line 363 is evaluated in `size_t`, so its result
is reduced modulo 2 ^ 64. -/
def createBuffer_resourceDesc (usage : BufferUsage) (size : Nat) : D3D12_RESOURCE_DESC :=
  let size :=
    if usage = BufferUsage.USAGE_UNIFORM then GP_MATH_ROUNDUP size 256 % 2 ^ 64 else size
  { Dimension := D3D12_RESOURCE_DIMENSION_BUFFER
    Flags := D3D12_RESOURCE_FLAG_NONE
    Format := DXGI_FORMAT_UNKNOWN
    Layout := D3D12_TEXTURE_LAYOUT_ROW_MAJOR
    Alignment := 0
    DepthOrArraySize := 1
    Height := 1
    MipLevels := 1
    SampleDescCount := 1
    SampleDescQuality := 0
    Width := size }

/-- The UINT64 `paddedSize` that `GetCopyableFootprints` writes for a descriptor. -/
def Backend.paddedSize (rt : Backend) (desc : D3D12_RESOURCE_DESC) : Nat :=
  rt.GetCopyableFootprints desc % 2 ^ 64

/-- `GraphicsD3D12::createBuffer`. The buffer object is built with the literal
`Buffer::USAGE_INDEX` of the source. The result is the buffer and the device with
its extended trace. -/
def createBuffer (rt : Backend) (s : GraphicsD3D12) (usage : BufferUsage) (size stride : Nat)
    (hostVisible is32bit : Bool) : Except Failure (BufferD3D12 × GraphicsD3D12) :=
  let resourceDesc := createBuffer_resourceDesc usage size
  -- Adjust for padding
  let calls := s.calls ++ [Call.GetCopyableFootprints resourceDesc]
  let paddedSize := rt.paddedSize resourceDesc
  let size := paddedSize
  let resourceDesc := { resourceDesc with Width := paddedSize }
  let resourceStates :=
    match usage with
    | BufferUsage.USAGE_VERTEX => D3D12_RESOURCE_STATE_VERTEX_AND_CONSTANT_BUFFER
    | BufferUsage.USAGE_UNIFORM => D3D12_RESOURCE_STATE_VERTEX_AND_CONSTANT_BUFFER
    | BufferUsage.USAGE_INDEX => D3D12_RESOURCE_STATE_INDEX_BUFFER
    | BufferUsage.other _ => D3D12_RESOURCE_STATE_COPY_DEST
  let heapType := if hostVisible then D3D12_HEAP_TYPE_UPLOAD else D3D12_HEAP_TYPE_DEFAULT
  let resourceStates :=
    if hostVisible then D3D12_RESOURCE_STATE_GENERIC_READ else resourceStates
  match rt.CreateCommittedResource calls heapType resourceDesc resourceStates with
  | none => Except.error (Failure.fatal "Failed to create buffer!")
  | some resource =>
    let calls := calls ++ [Call.CreateCommittedResource heapType resourceDesc resourceStates]
    let bufferD3D :=
      BufferD3D12.make BufferUsage.USAGE_INDEX size stride hostVisible s.device (some resource)
    let mapped : Except Failure (BufferD3D12 × List Call) :=
      if hostVisible then
        match rt.Map calls resource with
        | none => Except.error (Failure.fatal "Failed to map host memory.")
        | some hostMemory =>
          Except.ok ({ bufferD3D with hostMemory := some hostMemory },
            calls ++ [Call.Map resource])
      else Except.ok (bufferD3D, calls)
    match mapped with
    | Except.error e => Except.error e
    | Except.ok (bufferD3D, calls) =>
      let bufferD3D :=
        match usage with
        | BufferUsage.USAGE_VERTEX =>
          { bufferD3D with vertexBufferView :=
              { BufferLocation := rt.GetGPUVirtualAddress resource
                SizeInBytes := size % 2 ^ 32
                StrideInBytes := stride % 2 ^ 32 } }
        | BufferUsage.USAGE_INDEX =>
          { bufferD3D with indexBufferView :=
              { BufferLocation := rt.GetGPUVirtualAddress resource
                SizeInBytes := size % 2 ^ 32
                Format := if is32bit then DXGI_FORMAT_R32_UINT else DXGI_FORMAT_R16_UINT } }
        | BufferUsage.USAGE_UNIFORM =>
          { bufferD3D with constantBufferView :=
              { BufferLocation := rt.GetGPUVirtualAddress resource
                SizeInBytes := size % 2 ^ 32 } }
        | BufferUsage.other _ => bufferD3D
      Except.ok (bufferD3D, { s with calls := calls })

/-! ## Textures -/

/-- Modelled from the spec: `Texture::Type`, declared in Texture.h, which is not among
the sources: the three texture types, and `other raw` for every other value. -/
inductive TextureType where
  | TYPE_1D
  | TYPE_2D
  | TYPE_3D
  | other (raw : Nat)
  deriving DecidableEq, Repr

open TextureType

/-- Modelled from the spec: `ClearValue`, declared outside the sources: a colour or a
depth and stencil pair. The components are carried along and never computed with;
they stand here as integers. -/
inductive ClearValue where
  | color (red green blue alpha : Int)
  | depthStencil (depth : Int) (stencil : Nat)
  deriving DecidableEq, Repr

/-- Modelled from the spec: the class `TextureD3D12`, declared in TextureD3D12.h,
which is not among the sources. The fields are the spec's texture: type, width,
height, depth, mip-level count, pixel format, usage mask, sample count, clear value,
host visibility, ownership flag, and the native device and resource. -/
structure TextureD3D12 where
  type : TextureType
  width : Nat
  height : Nat
  depth : Nat
  mipLevels : Nat
  pixelFormat : Format
  usage : Nat
  sampleCount : SampleCount
  clearValue : ClearValue
  hostVisible : Bool
  hostOwned : Bool
  device : Option Nat
  resource : Option Nat
  deriving DecidableEq, Repr

/-- Modelled from the spec: the constructor of `TextureD3D12`; it records its
arguments, which the source passes in the order of the fields above. -/
def TextureD3D12.make (type : TextureType) (width height depth mipLevels : Nat)
    (pixelFormat : Format) (usage : Nat) (sampleCount : SampleCount) (clearValue : ClearValue)
    (hostVisible hostOwned : Bool) (device resource : Option Nat) : TextureD3D12 :=
  ⟨type, width, height, depth, mipLevels, pixelFormat, usage, sampleCount, clearValue,
    hostVisible, hostOwned, device, resource⟩

/-- The resource descriptor that `createTexture` builds (lines 479 to 525 of the
source). The casts of the source are `(UINT16)mipLevels` and the implicit ones into
the UINT `Height` and the UINT16 `DepthOrArraySize`. -/
def createTexture_resourceDesc (u : TextureUsage) (type : TextureType)
    (width height depth mipLevels : Nat) (pixelFormat : Format) (usage : Nat)
    (sampleCount : SampleCount) : D3D12_RESOURCE_DESC :=
  let resourceDimension :=
    match type with
    | TYPE_1D => D3D12_RESOURCE_DIMENSION_TEXTURE1D
    | TYPE_2D => D3D12_RESOURCE_DIMENSION_TEXTURE2D
    | TYPE_3D => D3D12_RESOURCE_DIMENSION_TEXTURE3D
    | TextureType.other _ => D3D12_RESOURCE_DIMENSION_TEXTURE2D
  let format := toFormat pixelFormat
  let flags := D3D12_RESOURCE_FLAG_NONE
  let flags := if usage &&& u.USAGE_COLOR_ATTACHMENT ≠ 0
    then flags ||| D3D12_RESOURCE_FLAG_ALLOW_RENDER_TARGET else flags
  let flags := if usage &&& u.USAGE_DEPTH_STENCIL_ATTACHMENT ≠ 0
    then flags ||| D3D12_RESOURCE_FLAG_ALLOW_DEPTH_STENCIL else flags
  { Dimension := resourceDimension
    Alignment := 0
    Width := width
    Height := height % 2 ^ 32
    DepthOrArraySize := depth % 2 ^ 16
    MipLevels := mipLevels % 2 ^ 16
    Format := format
    SampleDescCount := toSamples sampleCount
    SampleDescQuality := 0
    Layout := D3D12_TEXTURE_LAYOUT_UNKNOWN
    Flags := flags }

/-- `GraphicsD3D12::createTexture`. With no `resource` supplied the texture is
allocated and `hostOwned` is true, with one supplied nothing is allocated and
`hostOwned` is false. The texture object is built with the literals `Texture::TYPE_3D`
and `1` (mip levels) of the source. The shader-resource view descriptor that the
source fills is a local that nothing reads; it is left out. -/
def createTexture (u : TextureUsage) (rt : Backend) (s : GraphicsD3D12) (type : TextureType)
    (width height depth mipLevels : Nat) (pixelFormat : Format) (usage : Nat)
    (sampleCount : SampleCount) (clearValue : ClearValue) (hostVisible : Bool)
    (resource : Option Nat) : Except Failure (TextureD3D12 × GraphicsD3D12) :=
  let resourceDesc :=
    createTexture_resourceDesc u type width height depth mipLevels pixelFormat usage sampleCount
  let resourceStates := toResourceStates u usage
  let allocated : Except Failure (Option Nat × Bool × List Call) :=
    match resource with
    | none =>
      match rt.CreateCommittedResource s.calls D3D12_HEAP_TYPE_DEFAULT resourceDesc
          resourceStates with
      | none => Except.error (Failure.fatal "Failed to create texture!")
      | some created =>
        Except.ok (some created, true,
          s.calls ++ [Call.CreateCommittedResource D3D12_HEAP_TYPE_DEFAULT resourceDesc
            resourceStates])
    | some supplied => Except.ok (some supplied, false, s.calls)
  match allocated with
  | Except.error e => Except.error e
  | Except.ok (resource, hostOwned, calls) =>
    let textureD3D := TextureD3D12.make TYPE_3D width height depth 1 pixelFormat usage
      sampleCount clearValue hostVisible hostOwned s.device resource
    Except.ok (textureD3D, { s with calls := calls })

/-- Modelled from the spec: the macro `GP_ASSERT` of Base.h, which is not among the
sources; the spec has a failed assertion reject the call as a precondition violation
before any backend call. -/
def GP_ASSERT (expression : Bool) : Except Failure Unit :=
  if expression then Except.ok () else Except.error Failure.precondition

/-- `GraphicsD3D12::createTexture1d`. -/
def createTexture1d (u : TextureUsage) (rt : Backend) (s : GraphicsD3D12) (width : Nat)
    (pixelFormat : Format) (usage : Nat) (sampleCount : SampleCount) (clearValue : ClearValue)
    (hostVisible : Bool) : Except Failure (TextureD3D12 × GraphicsD3D12) :=
  match GP_ASSERT (pixelFormat != FORMAT_UNDEFINED) with
  | Except.error e => Except.error e
  | Except.ok _ =>
    createTexture u rt s TYPE_1D width 1 1 1 pixelFormat usage sampleCount clearValue
      hostVisible none

/-- Modelled from the spec: `Graphics::computeMipLevels`, defined outside the sources;
the spec gives the value as `floor(log2(max(width, height))) + 1`. -/
def computeMipLevels (width height : Nat) : Nat :=
  Nat.log2 (max width height) + 1

/-- `GraphicsD3D12::createTexture2d`. -/
def createTexture2d (k : GraphicsConstants) (u : TextureUsage) (rt : Backend)
    (s : GraphicsD3D12) (width height mipLevels : Nat) (pixelFormat : Format) (usage : Nat)
    (sampleCount : SampleCount) (clearValue : ClearValue) (hostVisible : Bool) :
    Except Failure (TextureD3D12 × GraphicsD3D12) :=
  match GP_ASSERT (pixelFormat != FORMAT_UNDEFINED) with
  | Except.error e => Except.error e
  | Except.ok _ =>
    let mipLevels :=
      if mipLevels ≥ k.GP_GRAPHICS_MIP_LEVELS_MAX then computeMipLevels width height
      else mipLevels
    createTexture u rt s TYPE_2D width height 1 mipLevels pixelFormat usage sampleCount
      clearValue hostVisible none

/-- `GraphicsD3D12::createTexture3d`. -/
def createTexture3d (u : TextureUsage) (rt : Backend) (s : GraphicsD3D12)
    (width height depth : Nat) (pixelFormat : Format) (usage : Nat)
    (sampleCount : SampleCount) (clearValue : ClearValue) (hostVisible : Bool) :
    Except Failure (TextureD3D12 × GraphicsD3D12) :=
  match GP_ASSERT (pixelFormat != FORMAT_UNDEFINED) with
  | Except.error e => Except.error e
  | Except.ok _ =>
    createTexture u rt s TYPE_3D width height depth 1 pixelFormat usage sampleCount
      clearValue hostVisible none

/-- Modelled from the spec: the macro `GP_SAFE_RELEASE` of Base.h, which is not among
the sources: a handle that is not null is released and the variable that held it is
cleared; a null handle is left alone. The result is the trace and the variable. -/
def GP_SAFE_RELEASE (calls : List Call) (x : Option Nat) : List Call × Option Nat :=
  match x with
  | some handle => (calls ++ [Call.Release handle], none)
  | none => (calls, none)

/-- `GraphicsD3D12::destroyTexture`: `GP_SAFE_RELEASE(textureD3D->_resource)` on the
texture object that the shared pointer designates; the ownership flag is not read.
The result is the device and the texture object as the call leaves them. -/
def destroyTexture (s : GraphicsD3D12) (texture : TextureD3D12) :
    GraphicsD3D12 × TextureD3D12 :=
  let released := GP_SAFE_RELEASE s.calls texture.resource
  ({ s with calls := released.1 }, { texture with resource := released.2 })

/-- The handles that a trace releases, in order. -/
def releasedHandles (calls : List Call) : List Nat :=
  calls.filterMap (fun c => match c with
    | Call.Release handle => some handle
    | _ => none)

/-! ## Swapchain -/

/-- The conversion of an `int` member to the `size_t` parameter of `createTexture`. -/
def toSizeT (x : Int) : Nat := (x % 2 ^ 64).toNat

/-- The loop variables of `createSwapchainImages`: the device, the descriptor handle
that walks the view heap, and the colour attachments pushed so far. -/
structure SwapchainImagesLoop where
  device : GraphicsD3D12
  swapchainImageViewHandle : Nat
  colorAttachments : List TextureD3D12
  depthStencilAttachments : List TextureD3D12
  deriving DecidableEq, Repr

/-- One iteration of the loop of `createSwapchainImages`, for image `i`. -/
def createSwapchainImages_body (u : TextureUsage) (rt : Backend) (l : SwapchainImagesLoop)
    (i : Nat) : Except Failure SwapchainImagesLoop :=
  let s := l.device
  match rt.GetBuffer s.calls i with
  | none => Except.error (Failure.fatal "D3D_CHECK_RESULT")
  | some image =>
    let s := { s with
      swapchainImages := s.swapchainImages.set i (some image)
      calls := s.calls ++ [Call.GetBuffer i,
        Call.CreateRenderTargetView (some image) l.swapchainImageViewHandle] }
    let swapchainImageViewHandle :=
      l.swapchainImageViewHandle + s.swapchainImagesViewDescriptorSize
    let clearColor := ClearValue.color 0 0 0 0
    match createTexture u rt s TYPE_2D (toSizeT s.width) (toSizeT s.height) 1 1
        FORMAT_R8G8B8A8_UNORM u.USAGE_COLOR_ATTACHMENT SAMPLE_COUNT_1X clearColor false
        (some image) with
    | Except.error e => Except.error e
    | Except.ok (colorAttachment, s) =>
      let clearDepthStencil := ClearValue.depthStencil 0 0
      match createTexture u rt s TYPE_2D (toSizeT s.width) (toSizeT s.height) 1 1
          FORMAT_D24_UNORM_S8_UINT u.USAGE_DEPTH_STENCIL_ATTACHMENT SAMPLE_COUNT_1X
          clearDepthStencil false (some image) with
      | Except.error e => Except.error e
      | Except.ok (depthStencilAttachment, s) =>
        Except.ok
          { device := s
            swapchainImageViewHandle := swapchainImageViewHandle
            colorAttachments := l.colorAttachments ++ [colorAttachment]
            depthStencilAttachments := l.depthStencilAttachments ++ [depthStencilAttachment] }

/-- `GraphicsD3D12::createSwapchainImages`. `createRenderPass` is an empty stub in the
source and leaves no trace. Besides the device, the result lists the textures that
the loop created over the swapchain images, which the source drops on return. -/
def createSwapchainImages (k : GraphicsConstants) (u : TextureUsage) (rt : Backend)
    (s : GraphicsD3D12) : Except Failure (GraphicsD3D12 × List TextureD3D12) :=
  let s := { s with
    swapchainImagesViewDescriptorSize := rt.GetDescriptorHandleIncrementSize
    calls := s.calls ++
      [Call.GetDescriptorHandleIncrementSize, Call.GetCPUDescriptorHandleForHeapStart] }
  let start : SwapchainImagesLoop :=
    { device := s
      swapchainImageViewHandle := rt.GetCPUDescriptorHandleForHeapStart
      colorAttachments := []
      depthStencilAttachments := [] }
  match (List.range k.GP_GRAPHICS_SWAPCHAIN_IMAGE_COUNT).foldlM
      (createSwapchainImages_body u rt) start with
  | Except.error e => Except.error e
  | Except.ok l =>
    let s := l.device
    let s := { s with
      swapchainImageIndex := rt.GetCurrentBackBufferIndex s.calls
      calls := s.calls ++ [Call.GetCurrentBackBufferIndex] }
    Except.ok (s, l.colorAttachments ++ l.depthStencilAttachments)

/-- `GraphicsD3D12::onResize`. -/
def onResize (k : GraphicsConstants) (u : TextureUsage) (rt : Backend) (s : GraphicsD3D12)
    (width height : Int) : Except Failure GraphicsD3D12 :=
  if !s.resized || (width == s.width && height == s.height) then Except.ok s
  else
    let s := { s with resized := false }
    -- Resize the swap chain to the desired dimensions.
    let s := { s with calls := s.calls ++ [Call.GetDesc] }
    if rt.ResizeBuffers s.calls k.GP_GRAPHICS_SWAPCHAIN_IMAGE_COUNT width height = false then
      Except.error (Failure.fatal "D3D_CHECK_RESULT")
    else
      let s := { s with
        calls := s.calls ++
          [Call.ResizeBuffers k.GP_GRAPHICS_SWAPCHAIN_IMAGE_COUNT width height] }
      -- Reset the frame index to the current back buffer index.
      let s := { s with
        swapchainImageIndex := rt.GetCurrentBackBufferIndex s.calls
        calls := s.calls ++ [Call.GetCurrentBackBufferIndex] }
      match createSwapchainImages k u rt s with
      | Except.error e => Except.error e
      | Except.ok (s, _) =>
        Except.ok { s with width := width, height := height, resized := true }

/-- `GraphicsD3D12::present()`, the overload without arguments. The fence counter is
a UINT64. The slot index is below the image count when the function is entered, so
the addition does not wrap in an integer type that holds the image count. -/
def present (k : GraphicsConstants) (s : GraphicsD3D12) : GraphicsD3D12 :=
  let fenceValue := s.fenceValueCurrent
  { s with
    calls := s.calls ++
      [Call.Present 1 0, Call.Signal (s.fences.getD s.swapchainImageIndex none) fenceValue]
    fenceValues := s.fenceValues.set s.swapchainImageIndex fenceValue
    fenceValueCurrent := (s.fenceValueCurrent + 1) % 2 ^ 64
    swapchainImageIndex := (s.swapchainImageIndex + 1) % k.GP_GRAPHICS_SWAPCHAIN_IMAGE_COUNT }

/-- `GraphicsD3D12::present(std::vector<std::shared_ptr<Semaphore>> waitSemaphores)`,
the overload of the public interface: its body is empty. Semaphores are natural
numbers here. -/
def present_waitSemaphores (s : GraphicsD3D12) (_waitSemaphores : List Nat) : GraphicsD3D12 :=
  s

/-- A device as `onInitialize` leaves it, for three swapchain images of 1280 by 720,
used to evaluate the functions. -/
def sampleDevice : GraphicsD3D12 where
  initialized := true
  resized := true
  width := 1280
  height := 720
  fullscreen := false
  vsync := false
  multisampling := 0
  validation := false
  hwnd := some 1
  displayModes := [⟨1280, 720⟩]
  displayMode := 0
  device := some 2
  queue := some 3
  swapchain := some 4
  swapchainImagesViewHeap := some 5
  swapchainImagesViewDescriptorSize := 32
  swapchainImages := [some 10, some 11, some 12]
  swapchainImageIndex := 0
  fences := [some 20, some 21, some 22]
  fenceValues := [0, 0, 0]
  fenceValueCurrent := 1
  calls := []

/-- The constants of a build with three swapchain images and a mip-level sentinel
of 16, used to evaluate the functions. -/
def sampleConstants : GraphicsConstants where
  GP_GRAPHICS_SWAPCHAIN_IMAGE_COUNT := 3
  GP_GRAPHICS_MIP_LEVELS_MAX := 16

/-- A runtime in which every call succeeds, used to evaluate the functions: the
footprint of a descriptor is its width rounded up to 256, a new resource gets the
handle 100 plus the length of the trace, and image `i` of the swapchain is 10 + i. -/
def sampleBackend : Backend where
  GetCopyableFootprints := fun desc => ((desc.Width + 255) / 256) * 256
  CreateCommittedResource := fun calls _ _ _ => some (100 + calls.length)
  Map := fun _ resource => some (1000 + resource)
  GetGPUVirtualAddress := fun resource => 4096 * resource
  ResizeBuffers := fun _ _ _ _ => true
  GetCurrentBackBufferIndex := fun _ => 0
  GetDescriptorHandleIncrementSize := 32
  GetCPUDescriptorHandleForHeapStart := 0
  GetBuffer := fun _ i => some (10 + i)

/-- A device-owned texture, as `createTexture` returns it when no backing is
supplied, used to evaluate `destroyTexture`. -/
def sampleOwnedTexture : TextureD3D12 :=
  TextureD3D12.make TYPE_3D 64 64 1 1 FORMAT_R8G8B8A8_UNORM usageBits.USAGE_SAMPLED_IMAGE
    SAMPLE_COUNT_1X (ClearValue.color 0 0 0 0) false true (some 2) (some 100)

/-! ## Buffer shims -/

/-- Modelled from the spec: `IndexFormat`, declared outside the sources: the 32-bit
index format, which is the one enumerator the source names, and `other raw` for every
other value, the 16-bit format among them. -/
inductive IndexFormat where
  | INDEX_FORMAT_UINT
  | other (raw : Nat)
  deriving DecidableEq, Repr

open IndexFormat

/-- `GraphicsD3D12::createVertexBuffer`. -/
def createVertexBuffer (rt : Backend) (s : GraphicsD3D12) (size vertexStride : Nat)
    (hostVisible : Bool) : Except Failure (BufferD3D12 × GraphicsD3D12) :=
  createBuffer rt s BufferUsage.USAGE_VERTEX size vertexStride hostVisible true

/-- `GraphicsD3D12::createIndexBuffer`; `sizeof(unsigned int)` is 4 and
`sizeof(unsigned short)` is 2. -/
def createIndexBuffer (rt : Backend) (s : GraphicsD3D12) (size : Nat)
    (indexFormat : IndexFormat) (hostVisible : Bool) :
    Except Failure (BufferD3D12 × GraphicsD3D12) :=
  let stride := if indexFormat = INDEX_FORMAT_UINT then 4 else 2
  createBuffer rt s BufferUsage.USAGE_INDEX size stride hostVisible
    (decide (indexFormat = INDEX_FORMAT_UINT))

/-- `GraphicsD3D12::createUniformBuffer`. -/
def createUniformBuffer (rt : Backend) (s : GraphicsD3D12) (size : Nat) (hostVisible : Bool) :
    Except Failure (BufferD3D12 × GraphicsD3D12) :=
  createBuffer rt s BufferUsage.USAGE_UNIFORM size size hostVisible true

/-- The heap that the specification gives a buffer: upload when it is host-visible,
default otherwise. -/
def bufferHeapSpec (hostVisible : Bool) : D3D12_HEAP_TYPE :=
  if hostVisible then D3D12_HEAP_TYPE_UPLOAD else D3D12_HEAP_TYPE_DEFAULT

/-- The initial state that the specification gives a buffer: generic-read when it is
host-visible; otherwise vertex-and-constant-buffer for vertex and uniform usage,
index-buffer for index usage, copy-destination for any other usage. -/
def bufferStateSpec (usage : BufferUsage) (hostVisible : Bool) : Nat :=
  if hostVisible then D3D12_RESOURCE_STATE_GENERIC_READ
  else if usage = BufferUsage.USAGE_VERTEX ∨ usage = BufferUsage.USAGE_UNIFORM then
    D3D12_RESOURCE_STATE_VERTEX_AND_CONSTANT_BUFFER
  else if usage = BufferUsage.USAGE_INDEX then D3D12_RESOURCE_STATE_INDEX_BUFFER
  else D3D12_RESOURCE_STATE_COPY_DEST

/-- The descriptor with which `createBuffer` allocates: the one of the request with
its width replaced by the padded size. -/
def createBuffer_paddedDesc (rt : Backend) (usage : BufferUsage) (size : Nat) :
    D3D12_RESOURCE_DESC :=
  { createBuffer_resourceDesc usage size with
    Width := rt.paddedSize (createBuffer_resourceDesc usage size) }

/-- Whether a sample count is one of the five enumerators. -/
def SampleCount.isEnumerated : SampleCount → Bool
  | SampleCount.other _ => false
  | _ => true

/-- Whether a call allocates a native resource. -/
def Call.isAllocation : Call → Bool
  | Call.CreateCommittedResource _ _ _ => true
  | _ => false

/-- A borrowed texture over a native image: the ownership flag is false and the
texture holds a handle. -/
def TextureD3D12.isBorrowed (t : TextureD3D12) : Bool :=
  !t.hostOwned && t.resource.isSome

/-- What the loop of `createSwapchainImages` keeps true, `s0` being the device when
the loop is entered: only the image handles and the trace of the device change, the
trace grows at its end without any allocation, and every texture created so far is
borrowed. -/
def SwapchainImagesLoop.Inv (s0 : GraphicsD3D12) (l : SwapchainImagesLoop) : Prop :=
  { l.device with swapchainImages := s0.swapchainImages, calls := s0.calls } = s0
  ∧ (∃ extra, l.device.calls = s0.calls ++ extra
      ∧ extra.filter Call.isAllocation = [])
  ∧ (∀ t ∈ l.colorAttachments ++ l.depthStencilAttachments, t.isBorrowed = true)

/-! ## Initialization -/

def DXGI_CREATE_FACTORY_DEBUG : Nat := 0x1
def DXGI_ADAPTER_FLAG_SOFTWARE : Nat := 0x2
def DXGI_USAGE_RENDER_TARGET_OUTPUT : Nat := 0x20
def DXGI_SWAP_EFFECT_FLIP_DISCARD : Nat := 4

/-- Modelled from the spec: `Game::Config`, declared in Game.h, which is not among the
sources: the six values that `onInitialize` reads from it. -/
structure Config where
  width : Int
  height : Int
  fullscreen : Bool
  vsync : Bool
  multisampling : Nat
  validation : Bool
  deriving DecidableEq, Repr

/-- An adapter as `EnumAdapters1` enumerates it: its handle, the `Flags` of its
`DXGI_ADAPTER_DESC1`, and whether `D3D12CreateDevice` at feature level 11.0 succeeds on
it. -/
structure DXGI_ADAPTER where
  handle : Nat
  Flags : Nat
  supportsD3D12 : Bool
  deriving DecidableEq, Repr

/-- The part of the runtime that `onInitialize` calls besides `Backend`: what each
call returns, `none` being a failed `HRESULT`. `EnumAdapters1` is the enumeration of
the adapters in order. `GetDisplayModeListCount` answers the call that asks for the
number of modes, `GetDisplayModeList` the call that fills the modes in: its answer
is the list of the modes that the output enumerates at that call. -/
structure Factory where
  D3D12GetDebugInterface : Bool
  CreateDXGIFactory2 : Nat → Option Nat
  EnumAdapters1 : List DXGI_ADAPTER
  D3D12CreateDevice : Option Nat → Option Nat
  CreateCommandQueue : Option Nat
  EnumAdapters : Option Nat
  EnumOutputs : Option Nat
  GetDisplayModeListCount : Option Nat
  GetDisplayModeList : Option (List DXGI_MODE_DESC)
  CreateSwapChainForHwnd : Option Nat → DXGI_SWAP_CHAIN_DESC1 → Option Nat
  QueryInterface : Nat → Option Nat
  CreateDescriptorHeap : Nat → Option Nat

/-- The constructor `GraphicsD3D12::GraphicsD3D12`: the members of its initializer
list get the values of the list, the vector of display modes starts empty and so does
the trace; the members that the list leaves out keep the indeterminate values of
`indeterminate`. -/
def GraphicsD3D12.construct (indeterminate : GraphicsD3D12) : GraphicsD3D12 :=
  { indeterminate with
    initialized := false
    resized := false
    width := 0
    height := 0
    fullscreen := false
    vsync := false
    multisampling := 0
    hwnd := none
    displayModes := []
    displayMode := 0
    device := none
    swapchain := none
    swapchainImagesViewHeap := none
    swapchainImageIndex := 0
    calls := [] }

/-- The loop of `GraphicsD3D12::getHardwareAdapter` from adapter `adapterIndex` on. The
result is the local `adapter` when the loop is left, whether it was left by `break`,
and the trace. -/
def getHardwareAdapter_loop :
    List DXGI_ADAPTER → Nat → Option Nat → List Call → Option Nat × Bool × List Call
  | [], adapterIndex, adapter, calls =>
    (adapter, false, calls ++ [Call.EnumAdapters1 adapterIndex])
  | a :: rest, adapterIndex, _, calls =>
    let adapter := some a.handle
    let calls := calls ++ [Call.EnumAdapters1 adapterIndex, Call.GetDesc1 a.handle]
    if a.Flags &&& DXGI_ADAPTER_FLAG_SOFTWARE ≠ 0 then
      getHardwareAdapter_loop rest (adapterIndex + 1) adapter calls
    else
      -- Check to see if the adapter supports Direct3D 12
      let calls := calls ++ [Call.D3D12CreateDevice_probe a.handle]
      if a.supportsD3D12 then (adapter, true, calls)
      else getHardwareAdapter_loop rest (adapterIndex + 1) adapter calls

/-- `GraphicsD3D12::getHardwareAdapter`: `*ppAdapter` is set to null before the loop
and the source has no other assignment to it. The result is `*ppAdapter` and the
trace. -/
def getHardwareAdapter (fx : Factory) (calls : List Call) : Option Nat × List Call :=
  let ppAdapter : Option Nat := none
  let search := getHardwareAdapter_loop fx.EnumAdapters1 0 none calls
  (ppAdapter, search.2.2)

/-- The adapter that the specification has `getHardwareAdapter` select: the first of
the enumeration that is not a software adapter and on which a Direct3D 12 device can
be created; none when there is no such adapter. -/
def hardwareAdapterSpec (adapters : List DXGI_ADAPTER) : Option Nat :=
  (adapters.find? (fun a =>
    a.Flags &&& DXGI_ADAPTER_FLAG_SOFTWARE == 0 && a.supportsD3D12)).map (fun a => a.handle)

/-- Lines 58 to 67 of `onInitialize`: the window handle and the configuration. -/
def onInitialize_config (config : Config) (s : GraphicsD3D12) (window : Nat) : GraphicsD3D12 :=
  { s with
    hwnd := if window = 0 then none else some window
    width := config.width
    height := config.height
    fullscreen := config.fullscreen
    vsync := config.vsync
    multisampling := config.multisampling
    validation := config.validation }

/-- The locals of `onInitialize` that later lines release. -/
structure InitLocals where
  factory : Nat
  adapter : Nat
  output : Nat
  deriving DecidableEq, Repr

/-- Lines 69 to 106 of `onInitialize`: validation (compiled in when `_DEBUG` is
defined), the factory, the device on the adapter that `getHardwareAdapter` outputs,
the command queue, the first adapter and its first output. -/
def onInitialize_device (fx : Factory) (_DEBUG : Bool) (s : GraphicsD3D12) :
    Except Failure (GraphicsD3D12 × InitLocals) :=
  -- Graphics validation
  let dxgiFactoryFlags := 0
  let validated : Nat × List Call :=
    if _DEBUG && s.validation then
      (dxgiFactoryFlags ||| DXGI_CREATE_FACTORY_DEBUG,
        s.calls ++ [Call.D3D12GetDebugInterface] ++
          (if fx.D3D12GetDebugInterface then [Call.EnableDebugLayer] else []))
    else (dxgiFactoryFlags, s.calls)
  let dxgiFactoryFlags := validated.1
  let calls := validated.2
  -- Create the graphics interface factory
  match fx.CreateDXGIFactory2 dxgiFactoryFlags with
  | none => Except.error (Failure.fatal "Failed to create the graphics interface factory.")
  | some factory =>
    let calls := calls ++ [Call.CreateDXGIFactory2 dxgiFactoryFlags]
    -- Create the device
    let found := getHardwareAdapter fx calls
    let hardwareAdapter := found.1
    let calls := found.2
    match fx.D3D12CreateDevice hardwareAdapter with
    | none => Except.error (Failure.fatal "Failed to create a Direct3D 12 device.")
    | some device =>
      let calls := calls ++ [Call.D3D12CreateDevice hardwareAdapter]
      -- Create render command queue
      match fx.CreateCommandQueue with
      | none => Except.error (Failure.fatal "D3D_CHECK_RESULT")
      | some queue =>
        let calls := calls ++ [Call.CreateCommandQueue]
        -- Pick the first adapter and ouput
        match fx.EnumAdapters with
        | none => Except.error (Failure.fatal "D3D_CHECK_RESULT")
        | some adapter =>
          match fx.EnumOutputs with
          | none => Except.error (Failure.fatal "D3D_CHECK_RESULT")
          | some output =>
            Except.ok
              ({ s with
                  device := some device
                  queue := some queue
                  calls := calls ++ [Call.EnumAdapters 0, Call.EnumOutputs 0] },
                ⟨factory, adapter, output⟩)

/-- The conversion of an `int` member to a UINT: to the UINT member of a descriptor it
is assigned to, and to the UINT operand it is compared with. -/
def toUINT (x : Int) : Nat := (x % 2 ^ 32).toNat

/-- The conversion of a UINT to the `int` member it is assigned to. -/
def toINT (x : Nat) : Int :=
  if x % 2 ^ 32 < 2 ^ 31 then ((x % 2 ^ 32 : Nat) : Int)
  else ((x % 2 ^ 32 : Nat) : Int) - 2 ^ 32

/-- The loop of lines 119 to 128 of `onInitialize` from mode `i` on: the first mode
whose height and width equal the configured ones is taken and the loop is left. The
members of a mode are UINT and `_height` and `_width` are `int`: each comparison of
line 121 converts the `int` operand to UINT, and the assignments of lines 123 and 124
convert the UINT back to `int`. -/
def onInitialize_displayModeLoop : List DXGI_MODE_DESC → Nat → GraphicsD3D12 → GraphicsD3D12
  | [], _, s => s
  | mode :: rest, i, s =>
    if mode.Height = toUINT s.height ∧ mode.Width = toUINT s.width then
      { s with width := toINT mode.Width, height := toINT mode.Height, displayMode := i }
    else onInitialize_displayModeLoop rest (i + 1) s

/-- Lines 108 to 130 of `onInitialize`: the display modes of the output and the
choice among them. The vector is resized to the count that the first call reports;
the second call fills in the modes it enumerates, as many as the vector holds, and
writes their number back to `displayModeCount`, which bounds the loop. -/
def onInitialize_displayModes (fx : Factory) (s : GraphicsD3D12) (locals : InitLocals) :
    Except Failure GraphicsD3D12 :=
  match fx.GetDisplayModeListCount with
  | none =>
    Except.error (Failure.fatal
      "Failed to find compatible display mode for adapter outputs(monitor).")
  | some displayModeCount =>
    if displayModeCount < 1 then
      Except.error (Failure.fatal
        "Failed to find compatible display mode for adapter outputs(monitor).")
    else
      match fx.GetDisplayModeList with
      | none =>
        Except.error (Failure.fatal
          "Failed to get display mode list for adapter outputs(monitor).")
      | some modes =>
        let displayModes :=
          (modes ++ List.replicate displayModeCount (DXGI_MODE_DESC.mk 0 0)).take
            displayModeCount
        let displayModeCount := min modes.length displayModeCount
        let s := { s with
          displayModes := displayModes
          calls := s.calls ++ [Call.GetDisplayModeList, Call.GetDisplayModeList] }
        -- Find a display mode that matches our config
        let s := onInitialize_displayModeLoop (displayModes.take displayModeCount) 0 s
        Except.ok { s with
          calls := s.calls ++ [Call.Release locals.output, Call.Release locals.adapter] }

/-- The swapchain descriptor of lines 133 to 140 of `onInitialize`. -/
def onInitialize_swapchainDesc (k : GraphicsConstants) (s : GraphicsD3D12) :
    DXGI_SWAP_CHAIN_DESC1 :=
  { BufferCount := k.GP_GRAPHICS_SWAPCHAIN_IMAGE_COUNT
    Width := toUINT s.width
    Height := toUINT s.height
    Format := DXGI_FORMAT_R8G8B8A8_UNORM
    BufferUsage := DXGI_USAGE_RENDER_TARGET_OUTPUT
    SwapEffect := DXGI_SWAP_EFFECT_FLIP_DISCARD
    SampleDescCount := (1 + s.multisampling) % 2 ^ 32 }

/-- Lines 132 to 156 of `onInitialize`: the swapchain and the descriptor heap of its
image views. -/
def onInitialize_swapchain (k : GraphicsConstants) (rt : Backend) (fx : Factory)
    (s : GraphicsD3D12) (locals : InitLocals) : Except Failure GraphicsD3D12 :=
  -- Create the swapchain
  let swapchainDesc := onInitialize_swapchainDesc k s
  match fx.CreateSwapChainForHwnd s.hwnd swapchainDesc with
  | none => Except.error (Failure.fatal "D3D_CHECK_RESULT")
  | some swapchain =>
    match fx.QueryInterface swapchain with
    | none => Except.error (Failure.fatal "D3D_CHECK_RESULT")
    | some swapchain4 =>
      let calls := s.calls ++ [Call.CreateSwapChainForHwnd s.hwnd swapchainDesc,
        Call.QueryInterface swapchain, Call.Release locals.factory]
      -- Create a render target description heap for the back buffers
      let s := { s with
        swapchain := some swapchain4
        swapchainImageIndex := rt.GetCurrentBackBufferIndex calls
        calls := calls ++ [Call.GetCurrentBackBufferIndex] }
      match fx.CreateDescriptorHeap k.GP_GRAPHICS_SWAPCHAIN_IMAGE_COUNT with
      | none => Except.error (Failure.fatal "D3D_CHECK_RESULT")
      | some heap =>
        Except.ok { s with
          swapchainImagesViewHeap := some heap
          calls := s.calls ++
            [Call.CreateDescriptorHeap k.GP_GRAPHICS_SWAPCHAIN_IMAGE_COUNT] }

/-- `GraphicsD3D12::onInitialize`. The configuration, which the source reads from the
game singleton, is the argument `config`; `_DEBUG` tells whether the validation lines
are compiled in. -/
def onInitialize (k : GraphicsConstants) (u : TextureUsage) (rt : Backend) (fx : Factory)
    (_DEBUG : Bool) (config : Config) (s : GraphicsD3D12) (window _connection : Nat) :
    Except Failure GraphicsD3D12 :=
  if s.initialized then Except.ok s
  else
    let s := onInitialize_config config s window
    match onInitialize_device fx _DEBUG s with
    | Except.error e => Except.error e
    | Except.ok (s, locals) =>
      match onInitialize_displayModes fx s locals with
      | Except.error e => Except.error e
      | Except.ok s =>
        match onInitialize_swapchain k rt fx s locals with
        | Except.error e => Except.error e
        | Except.ok s =>
          -- Create the swapchain image
          match createSwapchainImages k u rt s with
          | Except.error e => Except.error e
          | Except.ok (s, _) => Except.ok { s with initialized := true, resized := true }

/-- `GraphicsD3D12::isInitialized`. -/
def isInitialized (s : GraphicsD3D12) : Bool := s.initialized

/-- A mode whose width and height both equal the configured ones, as line 121
compares them: the configured `int` is converted to UINT. -/
def DXGI_MODE_DESC.Matches (mode : DXGI_MODE_DESC) (width height : Int) : Prop :=
  mode.Width = toUINT width ∧ mode.Height = toUINT height

/-- A value of the type `int`, of 32 bits. -/
def IsINT (x : Int) : Prop := -2 ^ 31 ≤ x ∧ x < 2 ^ 31

/-- The swapchain descriptors that a trace has created swapchains with, in order. -/
def createdSwapchains (calls : List Call) : List DXGI_SWAP_CHAIN_DESC1 :=
  calls.filterMap (fun c => match c with
    | Call.CreateSwapChainForHwnd _ desc => some desc
    | _ => none)

/-- The fence values that a trace signals, in order. -/
def signalledValues (calls : List Call) : List Nat :=
  calls.filterMap (fun c => match c with
    | Call.Signal _ value => some value
    | _ => none)

/-- A runtime in which every call of `onInitialize` succeeds, used to evaluate it: a
software adapter followed by a hardware adapter, and three display modes. -/
def sampleFactory : Factory where
  D3D12GetDebugInterface := true
  CreateDXGIFactory2 := fun _ => some 50
  EnumAdapters1 := [⟨60, 2, true⟩, ⟨61, 0, true⟩]
  D3D12CreateDevice := fun _ => some 2
  CreateCommandQueue := some 3
  EnumAdapters := some 60
  EnumOutputs := some 70
  GetDisplayModeListCount := some 3
  GetDisplayModeList := some [⟨800, 600⟩, ⟨1280, 720⟩, ⟨1920, 1080⟩]
  CreateSwapChainForHwnd := fun _ _ => some 40
  QueryInterface := fun _ => some 4
  CreateDescriptorHeap := fun _ => some 5

/-- A configuration of 1280 by 720, used to evaluate `onInitialize`. -/
def sampleConfig : Config where
  width := 1280
  height := 720
  fullscreen := false
  vsync := false
  multisampling := 0
  validation := false

/-- A runtime that answers every call of `onInitialize`: no call fails, and the output
reports at least one display mode. -/
structure Factory.Answers (fx : Factory) : Prop where
  factory : ∀ flags, (fx.CreateDXGIFactory2 flags).isSome = true
  device : ∀ adapter, (fx.D3D12CreateDevice adapter).isSome = true
  queue : fx.CreateCommandQueue.isSome = true
  adapter : fx.EnumAdapters.isSome = true
  output : fx.EnumOutputs.isSome = true
  modeCount : ∃ count, fx.GetDisplayModeListCount = some count ∧ 1 ≤ count
  modes : fx.GetDisplayModeList.isSome = true
  swapchain : ∀ hwnd desc, (fx.CreateSwapChainForHwnd hwnd desc).isSome = true
  swapchain4 : ∀ swapchain, (fx.QueryInterface swapchain).isSome = true
  heap : ∀ count, (fx.CreateDescriptorHeap count).isSome = true

/-! ## Bit tests -/

/-- The source's test `FLAG == (usage & FLAG)` reads one bit of the mask. -/
theorem IsUsageBit.test_iff {flag : Nat} (h : IsUsageBit flag) (usage : Nat) :
    flag = (usage &&& flag) ↔ usage &&& flag ≠ 0 := by
  obtain ⟨k, rfl⟩ := h
  rw [Nat.and_two_pow]
  cases usage.testBit k <;> simp

theorem IsUsageBit.test_lor {flag : Nat} (h : IsUsageBit flag) (a b : Nat) :
    flag = ((a ||| b) &&& flag) ↔ (flag = (a &&& flag) ∨ flag = (b &&& flag)) := by
  obtain ⟨k, rfl⟩ := h
  simp only [Nat.and_two_pow, Nat.testBit_lor]
  cases a.testBit k <;> cases b.testBit k <;> simp

theorem usageContribution_lor {flag : Nat} (h : IsUsageBit flag) (state a b : Nat) :
    usageContribution flag state (a ||| b)
      = usageContribution flag state a ||| usageContribution flag state b := by
  unfold usageContribution
  have key := h.test_lor a b
  by_cases ha : flag = (a &&& flag) <;> by_cases hb : flag = (b &&& flag)
  · rw [if_pos (key.mpr (Or.inl ha)), if_pos ha, if_pos hb, Nat.or_self]
  · rw [if_pos (key.mpr (Or.inl ha)), if_pos ha, if_neg hb, Nat.or_zero]
  · rw [if_pos (key.mpr (Or.inr hb)), if_neg ha, if_pos hb, Nat.zero_or]
  · rw [if_neg (fun hc => (key.mp hc).elim ha hb), if_neg ha, if_neg hb, Nat.or_self]

/-- One step of the source, `if (c) result |= state`, as an OR with a contribution. -/
theorem lor_step (c : Prop) [Decidable c] (result state : Nat) :
    (if c then result ||| state else result) = result ||| (if c then state else 0) := by
  split <;> simp

theorem toResourceStates_eq_lor (u : TextureUsage) (usage : Nat) :
    toResourceStates u usage =
      usageContribution u.USAGE_TRANSFER_SRC D3D12_RESOURCE_STATE_COPY_SOURCE usage
      ||| usageContribution u.USAGE_TRANSFER_DST D3D12_RESOURCE_STATE_COPY_DEST usage
      ||| usageContribution u.USAGE_SAMPLED_IMAGE
            (D3D12_RESOURCE_STATE_PIXEL_SHADER_RESOURCE
              ||| D3D12_RESOURCE_STATE_NON_PIXEL_SHADER_RESOURCE) usage
      ||| usageContribution u.USAGE_STORAGE D3D12_RESOURCE_STATE_UNORDERED_ACCESS usage
      ||| usageContribution u.USAGE_COLOR_ATTACHMENT D3D12_RESOURCE_STATE_RENDER_TARGET usage
      ||| usageContribution u.USAGE_DEPTH_STENCIL_ATTACHMENT
            D3D12_RESOURCE_STATE_DEPTH_WRITE usage
      ||| usageContribution u.USAGE_RESOLVE_SRC D3D12_RESOURCE_STATE_RESOLVE_SOURCE usage
      ||| usageContribution u.USAGE_RESOLVE_DST D3D12_RESOURCE_STATE_RESOLVE_DEST usage := by
  unfold toResourceStates usageContribution
  simp only [lor_step]
  rw [show D3D12_RESOURCE_STATE_COMMON = 0 from rfl, Nat.zero_or]

/-- The OR of the contributions of the set bits, over any table, written as a fold
over the whole table. -/
theorem foldr_filter_lor (usage : Nat) (table : List (Nat × Nat)) :
    ((table.filter (fun p => decide (usage &&& p.1 ≠ 0))).map Prod.snd).foldr
        (fun state acc => state ||| acc) 0
      = table.foldr (fun p acc => (if usage &&& p.1 ≠ 0 then p.2 else 0) ||| acc) 0 := by
  induction table with
  | nil => rfl
  | cons p rest ih =>
    by_cases hp : usage &&& p.1 ≠ 0
    · simp only [List.filter_cons, hp, decide_True, if_true, List.map_cons, List.foldr_cons, ih,
        ne_eq, not_false_eq_true]
    · simp only [List.filter_cons, hp, decide_False, if_false, List.foldr_cons, ih, Nat.zero_or,
        Bool.false_eq_true]

theorem testBit_foldr_lor (usage i : Nat) (table : List (Nat × Nat)) :
    (table.foldr (fun (p : Nat × Nat) acc => (if usage &&& p.1 ≠ 0 then p.2 else 0) ||| acc)
        0).testBit i = true
      ↔ ∃ p ∈ table, usage &&& p.1 ≠ 0 ∧ p.2.testBit i = true := by
  induction table with
  | nil => simp
  | cons p rest ih =>
    rw [List.foldr_cons, Nat.testBit_lor, Bool.or_eq_true, ih]
    by_cases hp : usage &&& p.1 ≠ 0
    · simp [hp]
    · simp [hp]

theorem toResourceStates_eq_toResourceStatesSpec (u : TextureUsage) (hu : u.SingleBits)
    (usage : Nat) : toResourceStates u usage = toResourceStatesSpec u usage := by
  rw [toResourceStates_eq_lor, toResourceStatesSpec, foldr_filter_lor]
  simp only [usageContribution, usageContributions, List.foldr_cons, List.foldr_nil,
    hu.transferSrc.test_iff, hu.transferDst.test_iff, hu.sampledImage.test_iff,
    hu.storage.test_iff, hu.colorAttachment.test_iff, hu.depthStencilAttachment.test_iff,
    hu.resolveSrc.test_iff, hu.resolveDst.test_iff, Nat.or_zero, Nat.lor_assoc]

theorem usageBits_singleBits : usageBits.SingleBits where
  transferSrc := ⟨0, rfl⟩
  transferDst := ⟨1, rfl⟩
  sampledImage := ⟨2, rfl⟩
  storage := ⟨3, rfl⟩
  colorAttachment := ⟨4, rfl⟩
  depthStencilAttachment := ⟨5, rfl⟩
  resolveSrc := ⟨6, rfl⟩
  resolveDst := ⟨7, rfl⟩

/-! ## Claims on `toResourceStates` -/

/-- C1: for all usage masks `U1` and `U2`, `toResourceStates (U1 | U2)` is the
bitwise OR of `toResourceStates U1` and `toResourceStates U2`, the usage enumerators
being single bits. -/
theorem toResourceStates_lor (u : TextureUsage) (hu : u.SingleBits) (U1 U2 : Nat) :
    toResourceStates u (U1 ||| U2) = toResourceStates u U1 ||| toResourceStates u U2 := by
  rw [toResourceStates_eq_lor, toResourceStates_eq_lor, toResourceStates_eq_lor,
    usageContribution_lor hu.transferSrc, usageContribution_lor hu.transferDst,
    usageContribution_lor hu.sampledImage, usageContribution_lor hu.storage,
    usageContribution_lor hu.colorAttachment, usageContribution_lor hu.depthStencilAttachment,
    usageContribution_lor hu.resolveSrc, usageContribution_lor hu.resolveDst]
  ac_rfl

theorem toResourceStates_lor_witness :
    usageBits.SingleBits ∧
      toResourceStates usageBits (0x5 ||| 0x12)
        = toResourceStates usageBits 0x5 ||| toResourceStates usageBits 0x12 :=
  ⟨usageBits_singleBits, toResourceStates_lor usageBits usageBits_singleBits 0x5 0x12⟩

/-- C2: for every usage mask, `toResourceStates` is exactly the OR, over the usage
bits set in the mask, of the contribution the table gives for the bit; a native
state bit is in the result exactly when a set usage bit contributes it; and the
empty mask gives `D3D12_RESOURCE_STATE_COMMON`, which is zero. -/
theorem toResourceStates_table (u : TextureUsage) (hu : u.SingleBits) (usage : Nat) :
    toResourceStates u usage = toResourceStatesSpec u usage
    ∧ usageContributions u =
        [ (u.USAGE_TRANSFER_SRC, D3D12_RESOURCE_STATE_COPY_SOURCE),
          (u.USAGE_TRANSFER_DST, D3D12_RESOURCE_STATE_COPY_DEST),
          (u.USAGE_SAMPLED_IMAGE,
            D3D12_RESOURCE_STATE_PIXEL_SHADER_RESOURCE
              ||| D3D12_RESOURCE_STATE_NON_PIXEL_SHADER_RESOURCE),
          (u.USAGE_STORAGE, D3D12_RESOURCE_STATE_UNORDERED_ACCESS),
          (u.USAGE_COLOR_ATTACHMENT, D3D12_RESOURCE_STATE_RENDER_TARGET),
          (u.USAGE_DEPTH_STENCIL_ATTACHMENT, D3D12_RESOURCE_STATE_DEPTH_WRITE),
          (u.USAGE_RESOLVE_SRC, D3D12_RESOURCE_STATE_RESOLVE_SOURCE),
          (u.USAGE_RESOLVE_DST, D3D12_RESOURCE_STATE_RESOLVE_DEST) ]
    ∧ (∀ i : Nat, (toResourceStates u usage).testBit i = true ↔
        ∃ p ∈ usageContributions u, usage &&& p.1 ≠ 0 ∧ p.2.testBit i = true)
    ∧ toResourceStates u 0 = D3D12_RESOURCE_STATE_COMMON
    ∧ D3D12_RESOURCE_STATE_COMMON = 0 := by
  refine ⟨toResourceStates_eq_toResourceStatesSpec u hu usage, rfl, ?_, ?_, rfl⟩
  · intro i
    rw [toResourceStates_eq_toResourceStatesSpec u hu, toResourceStatesSpec, foldr_filter_lor]
    exact testBit_foldr_lor usage i _
  · rw [toResourceStates_eq_toResourceStatesSpec u hu, toResourceStatesSpec, foldr_filter_lor]
    simp [usageContributions, D3D12_RESOURCE_STATE_COMMON]

theorem toResourceStates_table_witness :
    usageBits.SingleBits ∧ toResourceStates usageBits 0x14 = 0xC4
      ∧ toResourceStatesSpec usageBits 0x14 = 0xC4 :=
  ⟨usageBits_singleBits,
    (toResourceStates_table usageBits usageBits_singleBits 0x14).1.trans (by decide),
    by decide⟩

/-! ## Claims on `toFormat` and `toSamples` -/

/-- C3: `toFormat` is a total function; the 23 logical formats of its switch are
distinct and each is sent to the fixed native format of its case, none of them
`DXGI_FORMAT_UNKNOWN`; every other input, `FORMAT_UNDEFINED` and the values outside
the enumeration among them, is sent to `DXGI_FORMAT_UNKNOWN`. -/
theorem toFormat_total (pixelFormat : Format) :
    handledFormats.length = 23
    ∧ handledFormats.Nodup
    ∧ handledFormats.map toFormat =
        [ DXGI_FORMAT_R8_UNORM,
          DXGI_FORMAT_R16_UNORM,
          DXGI_FORMAT_R16_FLOAT,
          DXGI_FORMAT_R32_UINT,
          DXGI_FORMAT_R32_FLOAT,
          DXGI_FORMAT_R8G8_UNORM,
          DXGI_FORMAT_R16G16_UNORM,
          DXGI_FORMAT_R16G16_FLOAT,
          DXGI_FORMAT_R32G32_UINT,
          DXGI_FORMAT_R32G32_FLOAT,
          DXGI_FORMAT_R32G32B32_UINT,
          DXGI_FORMAT_R32G32B32_FLOAT,
          DXGI_FORMAT_B8G8R8A8_UNORM,
          DXGI_FORMAT_R8G8B8A8_UNORM,
          DXGI_FORMAT_R16G16B16A16_UNORM,
          DXGI_FORMAT_R16G16B16A16_FLOAT,
          DXGI_FORMAT_R32G32B32A32_UINT,
          DXGI_FORMAT_R32G32B32A32_FLOAT,
          DXGI_FORMAT_D16_UNORM,
          DXGI_FORMAT_X32_TYPELESS_G8X24_UINT,
          DXGI_FORMAT_D32_FLOAT,
          DXGI_FORMAT_D24_UNORM_S8_UINT,
          DXGI_FORMAT_D32_FLOAT_S8X24_UINT ]
    ∧ (toFormat pixelFormat = DXGI_FORMAT_UNKNOWN ↔ pixelFormat ∉ handledFormats)
    ∧ toFormat FORMAT_UNDEFINED = DXGI_FORMAT_UNKNOWN
    ∧ (∀ raw : Nat, toFormat (Format.other raw) = DXGI_FORMAT_UNKNOWN) := by
  refine ⟨rfl, by decide, rfl, ?_, rfl, fun _ => rfl⟩
  cases pixelFormat <;> simp [toFormat, handledFormats]

/-- C4, evaluated on the code: for `SAMPLE_COUNT_1X` the switch of `toSamples` falls
through to its last assignment and returns 16 and not 1; the same holds for
`SAMPLE_COUNT_2X`, `SAMPLE_COUNT_4X` and `SAMPLE_COUNT_8X`. -/
theorem toSamples_falls_through :
    toSamples SAMPLE_COUNT_1X = 16 ∧ toSamples SAMPLE_COUNT_1X ≠ 1
    ∧ toSamples SAMPLE_COUNT_2X = 16 ∧ toSamples SAMPLE_COUNT_4X = 16
    ∧ toSamples SAMPLE_COUNT_8X = 16 ∧ toSamples SAMPLE_COUNT_16X = 16 := by
  decide

/-! ## Claims on `createBuffer` -/

theorem GP_MATH_ROUNDUP_256_dvd (size : Nat) : 256 ∣ GP_MATH_ROUNDUP size 256 :=
  Dvd.intro_left _ rfl

theorem GP_MATH_ROUNDUP_256_ge (size : Nat) : size ≤ GP_MATH_ROUNDUP size 256 := by
  unfold GP_MATH_ROUNDUP
  omega

theorem GP_MATH_ROUNDUP_256_least (size m : Nat) (hdvd : 256 ∣ m) (hle : size ≤ m) :
    GP_MATH_ROUNDUP size 256 ≤ m := by
  obtain ⟨q, rfl⟩ := hdvd
  unfold GP_MATH_ROUNDUP
  omega

/-- A size that leaves room for the padding is rounded without wrap-around. -/
theorem GP_MATH_ROUNDUP_256_lt (size : Nat) (h : size ≤ 2 ^ 64 - 256) :
    GP_MATH_ROUNDUP size 256 < 2 ^ 64 := by
  unfold GP_MATH_ROUNDUP
  omega

/-- The rounding reduced modulo 2 ^ 64 is the value of the expression
`(size + 256 - 1) / 256 * 256` when each of its operations is done in `size_t`. -/
theorem GP_MATH_ROUNDUP_256_size_t (size : Nat) (h : size < 2 ^ 64) :
    GP_MATH_ROUNDUP size 256 % 2 ^ 64
      = ((size + 256) % 2 ^ 64 + 2 ^ 64 - 1) % 2 ^ 64 / 256 * 256 % 2 ^ 64 := by
  unfold GP_MATH_ROUNDUP
  omega

/-- Above 2 ^ 64 - 256 the rounding wraps around to 0. -/
theorem GP_MATH_ROUNDUP_256_wraps (size : Nat) (hlo : 2 ^ 64 - 256 < size)
    (hhi : size < 2 ^ 64) : GP_MATH_ROUNDUP size 256 % 2 ^ 64 = 0 := by
  unfold GP_MATH_ROUNDUP
  omega

theorem createBuffer_resourceDesc_uniform (size : Nat) :
    (createBuffer_resourceDesc BufferUsage.USAGE_UNIFORM size).Width
      = GP_MATH_ROUNDUP size 256 % 2 ^ 64 := rfl

/-- The width of the request is a UINT64 for every `size_t` size. -/
theorem createBuffer_resourceDesc_width_lt (usage : BufferUsage) (size : Nat)
    (h : size < 2 ^ 64) : (createBuffer_resourceDesc usage size).Width < 2 ^ 64 := by
  unfold createBuffer_resourceDesc
  by_cases hu : usage = BufferUsage.USAGE_UNIFORM
  · simp only [hu, if_true]
    exact Nat.mod_lt _ (by norm_num)
  · simp only [hu, if_false]
    exact h

theorem Backend.paddedSize_lt (rt : Backend) (desc : D3D12_RESOURCE_DESC) :
    rt.paddedSize desc < 2 ^ 64 :=
  Nat.mod_lt _ (by norm_num)

/-- What `createBuffer` returns when it returns: the size of the buffer is the padded
size, and the trace starts with the footprint query on the descriptor of the
request. -/
theorem createBuffer_ok (rt : Backend) (s : GraphicsD3D12) (usage : BufferUsage)
    (size stride : Nat) (hostVisible is32bit : Bool) (b : BufferD3D12) (s' : GraphicsD3D12)
    (h : createBuffer rt s usage size stride hostVisible is32bit = Except.ok (b, s')) :
    b.size = rt.paddedSize (createBuffer_resourceDesc usage size)
    ∧ b.stride = stride
    ∧ b.usage = BufferUsage.USAGE_INDEX
    ∧ ∃ rest, s'.calls = s.calls ++
        Call.GetCopyableFootprints (createBuffer_resourceDesc usage size) :: rest := by
  unfold createBuffer at h
  simp only at h
  split at h
  · exact absurd h (by simp)
  · rename_i resource hres
    cases hostVisible
    · simp only [Bool.false_eq_true, if_false] at h
      cases usage <;> simp only [Except.ok.injEq, Prod.mk.injEq] at h <;>
        obtain ⟨rfl, rfl⟩ := h <;>
        exact ⟨rfl, rfl, rfl, _, by simp only [List.append_assoc]; rfl⟩
    · simp only [if_true] at h
      split at h
      · exact absurd h (by simp)
      · rename_i mapped calls hmapped
        split at hmapped
        · exact absurd hmapped (by simp)
        · simp only [Except.ok.injEq, Prod.mk.injEq] at hmapped
          obtain ⟨rfl, rfl⟩ := hmapped
          cases usage <;> simp only [Except.ok.injEq, Prod.mk.injEq] at h <;>
            obtain ⟨rfl, rfl⟩ := h <;>
            exact ⟨rfl, rfl, rfl, _, by simp only [List.append_assoc]; rfl⟩

/-- With a runtime whose allocation and mapping succeed, `createBuffer` returns a
buffer. -/
theorem createBuffer_returns (rt : Backend) (s : GraphicsD3D12) (usage : BufferUsage)
    (size stride : Nat) (hostVisible is32bit : Bool)
    (halloc : ∀ calls heap desc states,
      (rt.CreateCommittedResource calls heap desc states).isSome = true)
    (hmap : ∀ calls resource, (rt.Map calls resource).isSome = true) :
    ∃ b s', createBuffer rt s usage size stride hostVisible is32bit = Except.ok (b, s') := by
  unfold createBuffer
  simp only
  split
  · rename_i hnone
    exact absurd hnone (Option.ne_none_iff_isSome.mpr (halloc _ _ _ _))
  · rename_i resource hres
    cases hostVisible
    · exact ⟨_, _, rfl⟩
    · simp only [if_true]
      split
      · rename_i e hmapped
        split at hmapped
        · rename_i hnone
          exact absurd hnone (Option.ne_none_iff_isSome.mpr (hmap _ _))
        · exact absurd hmapped (by simp)
      · rename_i b calls hmapped
        exact ⟨_, _, rfl⟩

/-- C5, as amended: for every requested size of at most 2 ^ 64 - 256, `createBuffer`
with usage `USAGE_UNIFORM` hands to the footprint-padding step a descriptor whose
width is the smallest multiple of 256 that is at least the requested size; and when
the padding of the runtime sends a multiple of 256 (a UINT64) to a multiple of 256
that is not smaller, the size of the returned buffer is a multiple of 256 and at least
the requested size, so positive when the requested size is 1. The width and the
returned size are below 2 ^ 64. A buffer is returned whenever the allocation and the
mapping of the runtime succeed. -/
theorem createBuffer_uniform_size (rt : Backend) (s : GraphicsD3D12) (size stride : Nat)
    (hostVisible is32bit : Bool) (hsize : size ≤ 2 ^ 64 - 256)
    (hpad : ∀ desc : D3D12_RESOURCE_DESC, 256 ∣ desc.Width → desc.Width < 2 ^ 64 →
      256 ∣ rt.paddedSize desc ∧ desc.Width ≤ rt.paddedSize desc) :
    (∀ (b : BufferD3D12) (s' : GraphicsD3D12),
      createBuffer rt s BufferUsage.USAGE_UNIFORM size stride hostVisible is32bit
          = Except.ok (b, s') →
        (∃ desc rest, s'.calls = s.calls ++ Call.GetCopyableFootprints desc :: rest
          ∧ 256 ∣ desc.Width ∧ size ≤ desc.Width ∧ desc.Width < 2 ^ 64
          ∧ ∀ m : Nat, 256 ∣ m → size ≤ m → desc.Width ≤ m)
        ∧ 256 ∣ b.size ∧ size ≤ b.size ∧ b.size < 2 ^ 64 ∧ (size = 1 → 0 < b.size))
    ∧ ((∀ calls heap desc states,
          (rt.CreateCommittedResource calls heap desc states).isSome = true) →
        (∀ calls resource, (rt.Map calls resource).isSome = true) →
        ∃ b s', createBuffer rt s BufferUsage.USAGE_UNIFORM size stride hostVisible is32bit
          = Except.ok (b, s')) := by
  refine ⟨fun b s' h => ?_, createBuffer_returns rt s _ size stride hostVisible is32bit⟩
  obtain ⟨hsize', -, -, rest, hcalls⟩ :=
    createBuffer_ok rt s _ size stride hostVisible is32bit b s' h
  have hwidth : (createBuffer_resourceDesc BufferUsage.USAGE_UNIFORM size).Width
      = GP_MATH_ROUNDUP size 256 := by
    rw [createBuffer_resourceDesc_uniform, Nat.mod_eq_of_lt (GP_MATH_ROUNDUP_256_lt size hsize)]
  have hdvd : 256 ∣ (createBuffer_resourceDesc BufferUsage.USAGE_UNIFORM size).Width := by
    rw [hwidth]; exact GP_MATH_ROUNDUP_256_dvd size
  have hge : size ≤ (createBuffer_resourceDesc BufferUsage.USAGE_UNIFORM size).Width := by
    rw [hwidth]; exact GP_MATH_ROUNDUP_256_ge size
  have hlt : (createBuffer_resourceDesc BufferUsage.USAGE_UNIFORM size).Width < 2 ^ 64 := by
    rw [hwidth]; exact GP_MATH_ROUNDUP_256_lt size hsize
  obtain ⟨hp1, hp2⟩ := hpad _ hdvd hlt
  refine ⟨⟨_, rest, hcalls, hdvd, hge, hlt, fun m hm hle => ?_⟩, ?_, ?_, ?_, ?_⟩
  · rw [hwidth]; exact GP_MATH_ROUNDUP_256_least size m hm hle
  · rw [hsize']; exact hp1
  · rw [hsize']; exact le_trans hge hp2
  · rw [hsize']; exact Backend.paddedSize_lt rt _
  · intro h1
    have : size ≤ b.size := by rw [hsize']; exact le_trans hge hp2
    omega

theorem sampleBackend_padding (desc : D3D12_RESOURCE_DESC) (h : 256 ∣ desc.Width)
    (hlt : desc.Width < 2 ^ 64) :
    256 ∣ sampleBackend.paddedSize desc ∧ desc.Width ≤ sampleBackend.paddedSize desc := by
  obtain ⟨q, hq⟩ := h
  have hpad : sampleBackend.paddedSize desc = desc.Width := by
    show (desc.Width + 255) / 256 * 256 % 2 ^ 64 = desc.Width
    omega
  rw [hpad]
  exact ⟨⟨q, hq⟩, le_refl _⟩

theorem createBuffer_uniform_size_witness :
    ∃ b s', createBuffer sampleBackend sampleDevice BufferUsage.USAGE_UNIFORM 1 1 false true
        = Except.ok (b, s')
      ∧ b.size = 256 ∧ 256 ∣ b.size ∧ 1 ≤ b.size ∧ b.size < 2 ^ 64 ∧ 0 < b.size := by
  refine ⟨_, _, rfl, rfl, ?_⟩
  have h := (createBuffer_uniform_size sampleBackend sampleDevice 1 1 false true (by norm_num)
    sampleBackend_padding).1 _ _ rfl
  exact ⟨h.2.1, h.2.2.1, h.2.2.2.1, h.2.2.2.2 rfl⟩

/-- The claim C5 as stated fails on the code: for the requested size 2 ^ 64 - 1 with
usage `USAGE_UNIFORM` the rounding wraps around, the width handed to the
footprint-padding step is 0, which is not at least the requested size, and with a
runtime whose padding rounds up to 256 the returned buffer reports the size 0; no
UINT64 is a multiple of 256 and at least 2 ^ 64 - 1. -/
theorem createBuffer_uniform_wraps :
    (∃ b s' rest,
      createBuffer sampleBackend sampleDevice BufferUsage.USAGE_UNIFORM (2 ^ 64 - 1) 1 false true
        = Except.ok (b, s')
      ∧ s'.calls = sampleDevice.calls ++ Call.GetCopyableFootprints
          (createBuffer_resourceDesc BufferUsage.USAGE_UNIFORM (2 ^ 64 - 1)) :: rest
      ∧ b.size = 0 ∧ ¬ (2 ^ 64 - 1 ≤ b.size))
    ∧ (createBuffer_resourceDesc BufferUsage.USAGE_UNIFORM (2 ^ 64 - 1)).Width = 0
    ∧ ¬ (2 ^ 64 - 1 ≤ (createBuffer_resourceDesc BufferUsage.USAGE_UNIFORM (2 ^ 64 - 1)).Width)
    ∧ (∀ desc : D3D12_RESOURCE_DESC, 256 ∣ desc.Width → desc.Width < 2 ^ 64 →
        256 ∣ sampleBackend.paddedSize desc ∧ desc.Width ≤ sampleBackend.paddedSize desc)
    ∧ ∀ w : Nat, w < 2 ^ 64 → 256 ∣ w → ¬ (2 ^ 64 - 1 ≤ w) := by
  have hw : (createBuffer_resourceDesc BufferUsage.USAGE_UNIFORM (2 ^ 64 - 1)).Width = 0 :=
    GP_MATH_ROUNDUP_256_wraps _ (by norm_num) (by norm_num)
  refine ⟨⟨_, _, _, rfl, rfl, ?_, ?_⟩, hw, ?_, sampleBackend_padding, ?_⟩
  · show sampleBackend.paddedSize
      (createBuffer_resourceDesc BufferUsage.USAGE_UNIFORM (2 ^ 64 - 1)) = 0
    show ((createBuffer_resourceDesc BufferUsage.USAGE_UNIFORM (2 ^ 64 - 1)).Width + 255)
      / 256 * 256 % 2 ^ 64 = 0
    rw [hw]
    norm_num
  · show ¬ (2 ^ 64 - 1 ≤ sampleBackend.paddedSize
      (createBuffer_resourceDesc BufferUsage.USAGE_UNIFORM (2 ^ 64 - 1)))
    show ¬ (2 ^ 64 - 1 ≤ ((createBuffer_resourceDesc BufferUsage.USAGE_UNIFORM
      (2 ^ 64 - 1)).Width + 255) / 256 * 256 % 2 ^ 64)
    rw [hw]
    norm_num
  · rw [hw]
    norm_num
  · intro w hlt hdvd
    omega

/-! ## Claims on textures -/

/-- What `createTexture` returns when it returns: the texture object carries the
literals `TYPE_3D` and `1` whatever the type and the mip-level count of the request,
and its ownership flag tells whether no backing resource was supplied; a supplied
resource is wrapped and the runtime is not called, otherwise the one call is the
allocation with the descriptor of the request. -/
theorem createTexture_ok (u : TextureUsage) (rt : Backend) (s : GraphicsD3D12)
    (type : TextureType) (width height depth mipLevels : Nat) (pixelFormat : Format)
    (usage : Nat) (sampleCount : SampleCount) (clearValue : ClearValue) (hostVisible : Bool)
    (resource : Option Nat) (t : TextureD3D12) (s' : GraphicsD3D12)
    (h : createTexture u rt s type width height depth mipLevels pixelFormat usage sampleCount
      clearValue hostVisible resource = Except.ok (t, s')) :
    t.mipLevels = 1 ∧ t.type = TYPE_3D ∧ t.hostOwned = resource.isNone
      ∧ (∀ r, resource = some r → t.resource = some r ∧ s' = s)
      ∧ (resource = none → s'.calls = s.calls ++
          [Call.CreateCommittedResource D3D12_HEAP_TYPE_DEFAULT
            (createTexture_resourceDesc u type width height depth mipLevels pixelFormat usage
              sampleCount) (toResourceStates u usage)]) := by
  unfold createTexture at h
  simp only at h
  cases resource with
  | some supplied =>
    simp only [Except.ok.injEq, Prod.mk.injEq] at h
    obtain ⟨rfl, rfl⟩ := h
    exact ⟨rfl, rfl, rfl, fun r hr => ⟨by cases hr; rfl, rfl⟩, fun hr => by cases hr⟩
  | none =>
    simp only at h
    split at h
    · exact absurd h (by simp)
    · rename_i created owned calls hallocated
      split at hallocated
      · exact absurd hallocated (by simp)
      · simp only [Except.ok.injEq, Prod.mk.injEq] at hallocated
        obtain ⟨rfl, rfl, rfl⟩ := hallocated
        simp only [Except.ok.injEq, Prod.mk.injEq] at h
        obtain ⟨rfl, rfl⟩ := h
        exact ⟨rfl, rfl, rfl, fun r hr => (by cases hr), fun _ => rfl⟩

/-- With a runtime whose allocation succeeds, `createTexture` returns a texture. -/
theorem createTexture_returns (u : TextureUsage) (rt : Backend) (s : GraphicsD3D12)
    (type : TextureType) (width height depth mipLevels : Nat) (pixelFormat : Format)
    (usage : Nat) (sampleCount : SampleCount) (clearValue : ClearValue) (hostVisible : Bool)
    (resource : Option Nat)
    (halloc : ∀ calls heap desc states,
      (rt.CreateCommittedResource calls heap desc states).isSome = true) :
    ∃ t s', createTexture u rt s type width height depth mipLevels pixelFormat usage
      sampleCount clearValue hostVisible resource = Except.ok (t, s') := by
  unfold createTexture
  simp only
  cases resource with
  | some supplied => exact ⟨_, _, rfl⟩
  | none =>
    simp only
    cases hc : rt.CreateCommittedResource s.calls D3D12_HEAP_TYPE_DEFAULT
        (createTexture_resourceDesc u type width height depth mipLevels pixelFormat usage
          sampleCount) (toResourceStates u usage) with
    | none => exact absurd hc (Option.ne_none_iff_isSome.mpr (halloc _ _ _ _))
    | some created => exact ⟨_, _, rfl⟩

/-- The assertion of the texture constructors passes exactly on a defined format. -/
theorem GP_ASSERT_format (pixelFormat : Format) :
    GP_ASSERT (pixelFormat != FORMAT_UNDEFINED)
      = if pixelFormat = FORMAT_UNDEFINED then Except.error Failure.precondition
        else Except.ok () := by
  unfold GP_ASSERT
  by_cases hf : pixelFormat = FORMAT_UNDEFINED <;> simp [hf]

theorem createTexture1d_eq (u : TextureUsage) (rt : Backend) (s : GraphicsD3D12) (width : Nat)
    (pixelFormat : Format) (usage : Nat) (sampleCount : SampleCount) (clearValue : ClearValue)
    (hostVisible : Bool) :
    createTexture1d u rt s width pixelFormat usage sampleCount clearValue hostVisible
      = if pixelFormat = FORMAT_UNDEFINED then Except.error Failure.precondition
        else createTexture u rt s TYPE_1D width 1 1 1 pixelFormat usage sampleCount clearValue
          hostVisible none := by
  unfold createTexture1d
  rw [GP_ASSERT_format]
  by_cases hf : pixelFormat = FORMAT_UNDEFINED
  · rw [if_pos hf, if_pos hf]
  · rw [if_neg hf, if_neg hf]

theorem createTexture2d_eq (k : GraphicsConstants) (u : TextureUsage) (rt : Backend)
    (s : GraphicsD3D12) (width height mipLevels : Nat) (pixelFormat : Format) (usage : Nat)
    (sampleCount : SampleCount) (clearValue : ClearValue) (hostVisible : Bool) :
    createTexture2d k u rt s width height mipLevels pixelFormat usage sampleCount clearValue
        hostVisible
      = if pixelFormat = FORMAT_UNDEFINED then Except.error Failure.precondition
        else createTexture u rt s TYPE_2D width height 1
          (if mipLevels ≥ k.GP_GRAPHICS_MIP_LEVELS_MAX then computeMipLevels width height
            else mipLevels)
          pixelFormat usage sampleCount clearValue hostVisible none := by
  unfold createTexture2d
  rw [GP_ASSERT_format]
  by_cases hf : pixelFormat = FORMAT_UNDEFINED
  · rw [if_pos hf, if_pos hf]
  · rw [if_neg hf, if_neg hf]

theorem createTexture3d_eq (u : TextureUsage) (rt : Backend) (s : GraphicsD3D12)
    (width height depth : Nat) (pixelFormat : Format) (usage : Nat)
    (sampleCount : SampleCount) (clearValue : ClearValue) (hostVisible : Bool) :
    createTexture3d u rt s width height depth pixelFormat usage sampleCount clearValue
        hostVisible
      = if pixelFormat = FORMAT_UNDEFINED then Except.error Failure.precondition
        else createTexture u rt s TYPE_3D width height depth 1 pixelFormat usage sampleCount
          clearValue hostVisible none := by
  unfold createTexture3d
  rw [GP_ASSERT_format]
  by_cases hf : pixelFormat = FORMAT_UNDEFINED
  · rw [if_pos hf, if_pos hf]
  · rw [if_neg hf, if_neg hf]

/-- What `createTexture2d` returns when it returns: whatever mip-level count it is
called with, the texture object has mip-level count 1, while the descriptor of the
native allocation carries the count of the request, auto-computed at or above the
sentinel. -/
theorem createTexture2d_ok (k : GraphicsConstants) (u : TextureUsage) (rt : Backend)
    (s : GraphicsD3D12) (width height mipLevels : Nat) (pixelFormat : Format) (usage : Nat)
    (sampleCount : SampleCount) (clearValue : ClearValue) (hostVisible : Bool)
    (t : TextureD3D12) (s' : GraphicsD3D12)
    (h : createTexture2d k u rt s width height mipLevels pixelFormat usage sampleCount
      clearValue hostVisible = Except.ok (t, s')) :
    t.mipLevels = 1
    ∧ ∃ desc states, s'.calls = s.calls ++
        [Call.CreateCommittedResource D3D12_HEAP_TYPE_DEFAULT desc states]
      ∧ desc.MipLevels =
          (if mipLevels ≥ k.GP_GRAPHICS_MIP_LEVELS_MAX then computeMipLevels width height
            else mipLevels) % 2 ^ 16 := by
  rw [createTexture2d_eq] at h
  split at h
  · exact absurd h (by simp)
  · have hok := createTexture_ok _ _ _ _ _ _ _ _ _ _ _ _ _ _ _ _ h
    exact ⟨hok.1, _, _, hok.2.2.2.2 rfl, rfl⟩

/-- With a runtime whose allocation succeeds and a defined pixel format,
`createTexture2d` returns a texture. -/
theorem createTexture2d_returns (k : GraphicsConstants) (u : TextureUsage) (rt : Backend)
    (s : GraphicsD3D12) (width height mipLevels : Nat) (pixelFormat : Format) (usage : Nat)
    (sampleCount : SampleCount) (clearValue : ClearValue) (hostVisible : Bool)
    (hformat : pixelFormat ≠ FORMAT_UNDEFINED)
    (halloc : ∀ calls heap desc states,
      (rt.CreateCommittedResource calls heap desc states).isSome = true) :
    ∃ t s', createTexture2d k u rt s width height mipLevels pixelFormat usage sampleCount
      clearValue hostVisible = Except.ok (t, s') := by
  rw [createTexture2d_eq, if_neg hformat]
  exact createTexture_returns _ _ _ _ _ _ _ _ _ _ _ _ _ _ halloc

/-- The auto-computed count is `n + 1` when the larger dimension lies between `2 ^ n`
and `2 ^ (n + 1)`. -/
theorem computeMipLevels_eq (width height n : Nat) (hn : n ≠ 0)
    (hlow : 2 ^ n ≤ max width height) (hhigh : max width height < 2 ^ (n + 1)) :
    computeMipLevels width height = n + 1 := by
  unfold computeMipLevels
  rw [Nat.log2_eq_log_two, (Nat.log_eq_iff (Or.inl hn)).mpr ⟨hlow, hhigh⟩]

theorem computeMipLevels_1024_512 : computeMipLevels 1024 512 = 11 :=
  computeMipLevels_eq 1024 512 10 (by decide) (by decide) (by decide)

theorem sampleBackend_allocates (calls : List Call) (heap : D3D12_HEAP_TYPE)
    (desc : D3D12_RESOURCE_DESC) (states : Nat) :
    (sampleBackend.CreateCommittedResource calls heap desc states).isSome = true := rfl

/-- C6, evaluated on the code: for width 1024 and height 512 the auto-computed count
is 11, and `createTexture2d` called with the sentinel returns a texture whose
mip-level count is 1 and not 11, the 11 reaching only the descriptor of the native
allocation; called with 3, below the sentinel, it returns a texture whose mip-level
count is 1 and not 3. -/
theorem createTexture2d_mipLevels_literal :
    computeMipLevels 1024 512 = 11
    ∧ (∃ t s', createTexture2d sampleConstants usageBits sampleBackend sampleDevice 1024 512
          sampleConstants.GP_GRAPHICS_MIP_LEVELS_MAX FORMAT_R8G8B8A8_UNORM
          usageBits.USAGE_SAMPLED_IMAGE SAMPLE_COUNT_1X (ClearValue.color 0 0 0 0) false
          = Except.ok (t, s')
        ∧ t.mipLevels = 1 ∧ t.mipLevels ≠ 11
        ∧ ∃ desc states, s'.calls = sampleDevice.calls ++
            [Call.CreateCommittedResource D3D12_HEAP_TYPE_DEFAULT desc states]
          ∧ desc.MipLevels = 11)
    ∧ (∃ t s', createTexture2d sampleConstants usageBits sampleBackend sampleDevice 1024 512 3
          FORMAT_R8G8B8A8_UNORM usageBits.USAGE_SAMPLED_IMAGE SAMPLE_COUNT_1X
          (ClearValue.color 0 0 0 0) false = Except.ok (t, s')
        ∧ t.mipLevels = 1 ∧ t.mipLevels ≠ 3) := by
  refine ⟨computeMipLevels_1024_512, ?_, ?_⟩
  · obtain ⟨t, s', h⟩ := createTexture2d_returns sampleConstants usageBits sampleBackend
      sampleDevice 1024 512 sampleConstants.GP_GRAPHICS_MIP_LEVELS_MAX FORMAT_R8G8B8A8_UNORM
      usageBits.USAGE_SAMPLED_IMAGE SAMPLE_COUNT_1X (ClearValue.color 0 0 0 0) false
      (by decide) sampleBackend_allocates
    obtain ⟨hmip, desc, states, hcalls, hdesc⟩ := createTexture2d_ok _ _ _ _ _ _ _ _ _ _ _ _ _ _ h
    refine ⟨t, s', h, hmip, by rw [hmip]; decide, desc, states, hcalls, ?_⟩
    rw [hdesc, if_pos (le_refl _), computeMipLevels_1024_512]
    decide
  · obtain ⟨t, s', h⟩ := createTexture2d_returns sampleConstants usageBits sampleBackend
      sampleDevice 1024 512 3 FORMAT_R8G8B8A8_UNORM usageBits.USAGE_SAMPLED_IMAGE
      SAMPLE_COUNT_1X (ClearValue.color 0 0 0 0) false (by decide) sampleBackend_allocates
    have hmip := (createTexture2d_ok _ _ _ _ _ _ _ _ _ _ _ _ _ _ h).1
    exact ⟨t, s', h, hmip, by rw [hmip]; decide⟩

/-- Whatever the ownership flag of a texture, `destroyTexture` releases the native
resource that the texture holds. -/
theorem destroyTexture_releases (s : GraphicsD3D12) (t : TextureD3D12) (r : Nat)
    (hres : t.resource = some r) :
    (destroyTexture s t).1.calls = s.calls ++ [Call.Release r]
      ∧ (destroyTexture s t).2.resource = none
      ∧ (destroyTexture s t).2.hostOwned = t.hostOwned := by
  simp [destroyTexture, GP_SAFE_RELEASE, hres]

/-- A texture that holds no native resource is left alone, and so is the device. -/
theorem destroyTexture_null (s : GraphicsD3D12) (t : TextureD3D12) (hres : t.resource = none) :
    destroyTexture s t = (s, t) := by
  cases t
  cases s
  simp only at hres
  subst hres
  rfl

theorem releasedHandles_append (a b : List Call) :
    releasedHandles (a ++ b) = releasedHandles a ++ releasedHandles b := by
  simp [releasedHandles, List.filterMap_append]

/-- C9, evaluated on the code: `createTexture` over the supplied swapchain image 10
returns a borrowed texture (ownership flag false) that holds the image, nothing has
been released, and `destroyTexture` on that texture releases the image. -/
theorem destroyTexture_releases_borrowed :
    ∃ t s', createTexture usageBits sampleBackend sampleDevice TYPE_2D 1280 720 1 1
        FORMAT_R8G8B8A8_UNORM usageBits.USAGE_COLOR_ATTACHMENT SAMPLE_COUNT_1X
        (ClearValue.color 0 0 0 0) false (some 10) = Except.ok (t, s')
      ∧ t.hostOwned = false ∧ t.resource = some 10
      ∧ releasedHandles s'.calls = []
      ∧ releasedHandles (destroyTexture s' t).1.calls = [10] :=
  ⟨_, _, rfl, rfl, rfl, by decide, by decide⟩

/-- C10: for every device-owned texture that holds a native resource, two calls of
`destroyTexture` release the resource exactly once: the first call releases the
handle and clears it, the second finds no handle and changes neither the trace nor
the texture. -/
theorem destroyTexture_twice (s : GraphicsD3D12) (t : TextureD3D12) (r : Nat)
    (howned : t.hostOwned = true) (hres : t.resource = some r) :
    (destroyTexture s t).1.calls = s.calls ++ [Call.Release r]
    ∧ (destroyTexture s t).2.resource = none
    ∧ (destroyTexture s t).2.hostOwned = true
    ∧ destroyTexture (destroyTexture s t).1 (destroyTexture s t).2 = destroyTexture s t
    ∧ releasedHandles (destroyTexture (destroyTexture s t).1 (destroyTexture s t).2).1.calls
        = releasedHandles s.calls ++ [r] := by
  obtain ⟨h1, h2, h3⟩ := destroyTexture_releases s t r hres
  have h4 := destroyTexture_null (destroyTexture s t).1 (destroyTexture s t).2 h2
  refine ⟨h1, h2, h3.trans howned, h4, ?_⟩
  rw [h4, h1, releasedHandles_append]
  rfl

theorem destroyTexture_twice_witness :
    sampleOwnedTexture.hostOwned = true ∧ sampleOwnedTexture.resource = some 100
    ∧ releasedHandles (destroyTexture (destroyTexture sampleDevice sampleOwnedTexture).1
        (destroyTexture sampleDevice sampleOwnedTexture).2).1.calls = [100] :=
  ⟨rfl, rfl, (destroyTexture_twice sampleDevice sampleOwnedTexture 100 rfl rfl).2.2.2.2⟩

/-! ## Claims on the swapchain -/

theorem present_swapchainImageIndex (k : GraphicsConstants) (s : GraphicsD3D12) :
    (present k s).swapchainImageIndex
      = (s.swapchainImageIndex + 1) % k.GP_GRAPHICS_SWAPCHAIN_IMAGE_COUNT := rfl

/-- After `n` calls of `present()` the slot index has advanced by `n` modulo the
image count. -/
theorem present_iterate_index (k : GraphicsConstants) (s : GraphicsD3D12)
    (hs : s.swapchainImageIndex < k.GP_GRAPHICS_SWAPCHAIN_IMAGE_COUNT) (n : Nat) :
    ((present k)^[n] s).swapchainImageIndex
      = (s.swapchainImageIndex + n) % k.GP_GRAPHICS_SWAPCHAIN_IMAGE_COUNT := by
  induction n with
  | zero => exact (Nat.mod_eq_of_lt hs).symm
  | succ n ih =>
    rw [Function.iterate_succ_apply', present_swapchainImageIndex, ih, ← Nat.add_assoc,
      Nat.add_mod _ 1, Nat.mod_mod, ← Nat.add_mod]

/-- The overload `present()` does what the specification asks of a present: the slot
index advances by one modulo the image count and stays below it, is back at its
start after as many calls as there are images, and one further after one more. -/
theorem present_cycle (k : GraphicsConstants) (s : GraphicsD3D12)
    (hs : s.swapchainImageIndex < k.GP_GRAPHICS_SWAPCHAIN_IMAGE_COUNT) :
    (present k s).swapchainImageIndex < k.GP_GRAPHICS_SWAPCHAIN_IMAGE_COUNT
    ∧ ((present k)^[k.GP_GRAPHICS_SWAPCHAIN_IMAGE_COUNT] s).swapchainImageIndex
        = s.swapchainImageIndex
    ∧ ((present k)^[k.GP_GRAPHICS_SWAPCHAIN_IMAGE_COUNT + 1] s).swapchainImageIndex
        = (s.swapchainImageIndex + 1) % k.GP_GRAPHICS_SWAPCHAIN_IMAGE_COUNT := by
  refine ⟨Nat.mod_lt _ (Nat.lt_of_le_of_lt (Nat.zero_le _) hs), ?_, ?_⟩
  · rw [present_iterate_index k s hs, Nat.add_mod_right, Nat.mod_eq_of_lt hs]
  · rw [present_iterate_index k s hs, ← Nat.add_assoc, Nat.add_right_comm, Nat.add_mod_right]

/-- C7, evaluated on the code: `present(waitSemaphores)`, the overload of the public
interface, returns the device as it was, so from slot 0 of three the slot index is
still 0 after the call and not 1; the overload `present()` moves it to 1. -/
theorem present_waitSemaphores_keeps_index :
    present_waitSemaphores sampleDevice [] = sampleDevice
    ∧ (present_waitSemaphores sampleDevice []).swapchainImageIndex = 0
    ∧ (sampleDevice.swapchainImageIndex + 1) % sampleConstants.GP_GRAPHICS_SWAPCHAIN_IMAGE_COUNT
        = 1
    ∧ (present sampleConstants sampleDevice).swapchainImageIndex = 1 :=
  ⟨rfl, rfl, rfl, rfl⟩

/-- With other dimensions on a resizable device `onResize` does act: on the sample
device it resizes the swapchain, re-creates the images and records the new size. -/
theorem onResize_resizes :
    (onResize sampleConstants usageBits sampleBackend sampleDevice 800 600).map
        (fun s => (s.width, s.height, s.resized, s.calls.take 2))
      = Except.ok (800, 600, true, [Call.GetDesc, Call.ResizeBuffers 3 800 600]) := rfl

/-- C8: `onResize` returns the device unchanged, trace of runtime calls included,
whenever the device is not in a resizable state or the requested width and height
both equal the current ones. -/
theorem onResize_noop (k : GraphicsConstants) (u : TextureUsage) (rt : Backend)
    (s : GraphicsD3D12) (width height : Int)
    (h : s.resized = false ∨ (width = s.width ∧ height = s.height)) :
    onResize k u rt s width height = Except.ok s := by
  unfold onResize
  rw [if_pos]
  rcases h with h | ⟨hw, hh⟩
  · simp [h]
  · simp [hw, hh]

theorem onResize_noop_witness :
    (sampleDevice.resized = false ∨ ((1280 : Int) = sampleDevice.width
        ∧ (720 : Int) = sampleDevice.height))
    ∧ onResize sampleConstants usageBits sampleBackend sampleDevice 1280 720
        = Except.ok sampleDevice :=
  ⟨Or.inr ⟨rfl, rfl⟩,
    onResize_noop sampleConstants usageBits sampleBackend sampleDevice 1280 720
      (Or.inr ⟨rfl, rfl⟩)⟩

/-! ## Claims on the heap, the initial state and the shims of `createBuffer` -/

/-- The heap and the state that `createBuffer` computes are those of the
specification. -/
theorem createBuffer_heap_state (usage : BufferUsage) (hostVisible : Bool) :
    (if hostVisible then D3D12_HEAP_TYPE_UPLOAD else D3D12_HEAP_TYPE_DEFAULT)
        = bufferHeapSpec hostVisible
    ∧ (if hostVisible then D3D12_RESOURCE_STATE_GENERIC_READ else
        match usage with
        | BufferUsage.USAGE_VERTEX => D3D12_RESOURCE_STATE_VERTEX_AND_CONSTANT_BUFFER
        | BufferUsage.USAGE_UNIFORM => D3D12_RESOURCE_STATE_VERTEX_AND_CONSTANT_BUFFER
        | BufferUsage.USAGE_INDEX => D3D12_RESOURCE_STATE_INDEX_BUFFER
        | BufferUsage.other _ => D3D12_RESOURCE_STATE_COPY_DEST)
        = bufferStateSpec usage hostVisible := by
  cases hostVisible <;> cases usage <;> exact ⟨rfl, rfl⟩

/-- The allocation that a returning `createBuffer` has issued: it follows the
footprint query in the trace, with the heap and the state of the specification and
the padded descriptor. -/
theorem createBuffer_allocation (rt : Backend) (s : GraphicsD3D12) (usage : BufferUsage)
    (size stride : Nat) (hostVisible is32bit : Bool) (b : BufferD3D12) (s' : GraphicsD3D12)
    (h : createBuffer rt s usage size stride hostVisible is32bit = Except.ok (b, s')) :
    ∃ rest, s'.calls = s.calls ++
      Call.GetCopyableFootprints (createBuffer_resourceDesc usage size) ::
      Call.CreateCommittedResource (bufferHeapSpec hostVisible)
        (createBuffer_paddedDesc rt usage size) (bufferStateSpec usage hostVisible) :: rest := by
  unfold createBuffer at h
  simp only [(createBuffer_heap_state usage hostVisible).1,
    (createBuffer_heap_state usage hostVisible).2] at h
  split at h
  · exact absurd h (by simp)
  · rename_i resource hres
    cases hostVisible
    · simp only [Bool.false_eq_true, if_false] at h
      cases usage <;> simp only [Except.ok.injEq, Prod.mk.injEq] at h <;>
        obtain ⟨rfl, rfl⟩ := h <;>
        exact ⟨_, by simp only [List.append_assoc]; rfl⟩
    · simp only [if_true] at h
      split at h
      · exact absurd h (by simp)
      · rename_i mapped calls hmapped
        split at hmapped
        · exact absurd hmapped (by simp)
        · simp only [Except.ok.injEq, Prod.mk.injEq] at hmapped
          obtain ⟨rfl, rfl⟩ := hmapped
          cases usage <;> simp only [Except.ok.injEq, Prod.mk.injEq] at h <;>
            obtain ⟨rfl, rfl⟩ := h <;>
            exact ⟨_, by simp only [List.append_assoc]; rfl⟩

/-- The allocation is asked of the runtime with the heap and the state of the
specification: when the runtime refuses exactly that request, `createBuffer` ends with
the fatal error of the source. -/
theorem createBuffer_refused (rt : Backend) (s : GraphicsD3D12) (usage : BufferUsage)
    (size stride : Nat) (hostVisible is32bit : Bool)
    (hnone : rt.CreateCommittedResource
      (s.calls ++ [Call.GetCopyableFootprints (createBuffer_resourceDesc usage size)])
      (bufferHeapSpec hostVisible) (createBuffer_paddedDesc rt usage size)
      (bufferStateSpec usage hostVisible) = none) :
    createBuffer rt s usage size stride hostVisible is32bit
      = Except.error (Failure.fatal "Failed to create buffer!") := by
  unfold createBuffer
  simp only [(createBuffer_heap_state usage hostVisible).1,
    (createBuffer_heap_state usage hostVisible).2]
  have hnone' := hnone
  unfold createBuffer_paddedDesc at hnone'
  rw [hnone']

/-- C12: for every usage and host-visibility flag, the allocation of `createBuffer`
uses the heap and the initial state of the specification: with `hostVisible` the
upload heap and the generic-read state whatever the usage; otherwise the default
heap and the vertex-and-constant-buffer state for vertex or uniform usage, the
index-buffer state for index usage and the copy-destination state for any other
usage value. The request goes to the runtime with that heap and state (a refusal of
it is the fatal error), and a buffer is returned whenever the runtime succeeds. -/
theorem createBuffer_heap_and_state (rt : Backend) (s : GraphicsD3D12) (usage : BufferUsage)
    (size stride : Nat) (hostVisible is32bit : Bool) :
    (∀ (b : BufferD3D12) (s' : GraphicsD3D12),
      createBuffer rt s usage size stride hostVisible is32bit = Except.ok (b, s') →
        ∃ rest, s'.calls = s.calls ++
          Call.GetCopyableFootprints (createBuffer_resourceDesc usage size) ::
          Call.CreateCommittedResource (bufferHeapSpec hostVisible)
            (createBuffer_paddedDesc rt usage size) (bufferStateSpec usage hostVisible) :: rest)
    ∧ (rt.CreateCommittedResource
          (s.calls ++ [Call.GetCopyableFootprints (createBuffer_resourceDesc usage size)])
          (bufferHeapSpec hostVisible) (createBuffer_paddedDesc rt usage size)
          (bufferStateSpec usage hostVisible) = none →
        createBuffer rt s usage size stride hostVisible is32bit
          = Except.error (Failure.fatal "Failed to create buffer!"))
    ∧ ((∀ calls heap desc states,
          (rt.CreateCommittedResource calls heap desc states).isSome = true) →
        (∀ calls resource, (rt.Map calls resource).isSome = true) →
        ∃ b s', createBuffer rt s usage size stride hostVisible is32bit = Except.ok (b, s'))
    ∧ bufferHeapSpec true = D3D12_HEAP_TYPE_UPLOAD
    ∧ bufferStateSpec usage true = D3D12_RESOURCE_STATE_GENERIC_READ
    ∧ bufferHeapSpec false = D3D12_HEAP_TYPE_DEFAULT
    ∧ bufferStateSpec BufferUsage.USAGE_VERTEX false
        = D3D12_RESOURCE_STATE_VERTEX_AND_CONSTANT_BUFFER
    ∧ bufferStateSpec BufferUsage.USAGE_UNIFORM false
        = D3D12_RESOURCE_STATE_VERTEX_AND_CONSTANT_BUFFER
    ∧ bufferStateSpec BufferUsage.USAGE_INDEX false = D3D12_RESOURCE_STATE_INDEX_BUFFER
    ∧ (∀ raw : Nat, bufferStateSpec (BufferUsage.other raw) false
        = D3D12_RESOURCE_STATE_COPY_DEST) :=
  ⟨fun b s' h => createBuffer_allocation rt s usage size stride hostVisible is32bit b s' h,
    createBuffer_refused rt s usage size stride hostVisible is32bit,
    createBuffer_returns rt s usage size stride hostVisible is32bit,
    rfl, rfl, rfl, rfl, rfl, rfl, fun _ => rfl⟩

/-- What the three shims return when they return: the usage recorded in the buffer is
`USAGE_INDEX` for each of them, the stride is the one the shim passes. -/
theorem createBuffer_shims_ok (rt : Backend) (s : GraphicsD3D12) (size vertexStride : Nat)
    (indexFormat : IndexFormat) (hostVisible : Bool) (b : BufferD3D12) (s' : GraphicsD3D12) :
    (createVertexBuffer rt s size vertexStride hostVisible = Except.ok (b, s') →
      b.usage = BufferUsage.USAGE_INDEX ∧ b.stride = vertexStride)
    ∧ (createIndexBuffer rt s size indexFormat hostVisible = Except.ok (b, s') →
      b.usage = BufferUsage.USAGE_INDEX
        ∧ b.stride = if indexFormat = INDEX_FORMAT_UINT then 4 else 2)
    ∧ (createUniformBuffer rt s size hostVisible = Except.ok (b, s') →
      b.usage = BufferUsage.USAGE_INDEX ∧ b.stride = size) := by
  refine ⟨fun h => ?_, fun h => ?_, fun h => ?_⟩
  · have hok := createBuffer_ok rt s _ size vertexStride hostVisible true b s' h
    exact ⟨hok.2.2.1, hok.2.1⟩
  · have hok := createBuffer_ok rt s _ size _ hostVisible _ b s' h
    exact ⟨hok.2.2.1, hok.2.1⟩
  · have hok := createBuffer_ok rt s _ size size hostVisible true b s' h
    exact ⟨hok.2.2.1, hok.2.1⟩

/-- C13, evaluated on the code: `createVertexBuffer(300, 12, false)` returns a buffer
whose recorded usage is `USAGE_INDEX` and not `USAGE_VERTEX`, with stride 12, and
`createUniformBuffer(64, false)` returns a buffer whose recorded usage is
`USAGE_INDEX` and not `USAGE_UNIFORM`; `createIndexBuffer` returns a buffer of usage
`USAGE_INDEX` and stride 4 for the 32-bit index format and 2 for another. -/
theorem createVertexBuffer_usage_literal :
    (∃ b s', createVertexBuffer sampleBackend sampleDevice 300 12 false = Except.ok (b, s')
      ∧ b.usage = BufferUsage.USAGE_INDEX ∧ b.usage ≠ BufferUsage.USAGE_VERTEX
      ∧ b.stride = 12)
    ∧ (∃ b s', createUniformBuffer sampleBackend sampleDevice 64 false = Except.ok (b, s')
      ∧ b.usage = BufferUsage.USAGE_INDEX ∧ b.usage ≠ BufferUsage.USAGE_UNIFORM)
    ∧ (∃ b s', createIndexBuffer sampleBackend sampleDevice 64 INDEX_FORMAT_UINT false
        = Except.ok (b, s')
      ∧ b.usage = BufferUsage.USAGE_INDEX ∧ b.stride = 4)
    ∧ (∃ b s', createIndexBuffer sampleBackend sampleDevice 64 (IndexFormat.other 0) false
        = Except.ok (b, s')
      ∧ b.usage = BufferUsage.USAGE_INDEX ∧ b.stride = 2) :=
  ⟨⟨_, _, rfl, rfl, by decide, rfl⟩, ⟨_, _, rfl, rfl, by decide⟩, ⟨_, _, rfl, rfl, rfl⟩,
    ⟨_, _, rfl, rfl, rfl⟩⟩

/-! ## Claims on the texture constructors -/

/-- The only failure of `createTexture` is the fatal one of a refused allocation. -/
theorem createTexture_not_precondition (u : TextureUsage) (rt : Backend) (s : GraphicsD3D12)
    (type : TextureType) (width height depth mipLevels : Nat) (pixelFormat : Format)
    (usage : Nat) (sampleCount : SampleCount) (clearValue : ClearValue) (hostVisible : Bool)
    (resource : Option Nat) :
    createTexture u rt s type width height depth mipLevels pixelFormat usage sampleCount
      clearValue hostVisible resource ≠ Except.error Failure.precondition := by
  unfold createTexture
  simp only
  cases resource with
  | some supplied => simp
  | none =>
    simp only
    cases rt.CreateCommittedResource s.calls D3D12_HEAP_TYPE_DEFAULT
        (createTexture_resourceDesc u type width height depth mipLevels pixelFormat usage
          sampleCount) (toResourceStates u usage) with
    | none => simp
    | some created => simp

/-- C14: each of `createTexture1d`, `createTexture2d` and `createTexture3d` ends with
a precondition violation exactly when the pixel format is `FORMAT_UNDEFINED`, whatever
the runtime, which is then not asked anything; for every other format it is the call
of `createTexture` with type 1D, 2D and 3D respectively, whose native descriptor has
the matching dimension. -/
theorem createTexture_undefined_format (k : GraphicsConstants) (u : TextureUsage)
    (rt : Backend) (s : GraphicsD3D12) (width height depth mipLevels : Nat)
    (pixelFormat : Format) (usage : Nat) (sampleCount : SampleCount) (clearValue : ClearValue)
    (hostVisible : Bool) :
    (createTexture1d u rt s width pixelFormat usage sampleCount clearValue hostVisible
        = Except.error Failure.precondition ↔ pixelFormat = FORMAT_UNDEFINED)
    ∧ (createTexture2d k u rt s width height mipLevels pixelFormat usage sampleCount clearValue
        hostVisible = Except.error Failure.precondition ↔ pixelFormat = FORMAT_UNDEFINED)
    ∧ (createTexture3d u rt s width height depth pixelFormat usage sampleCount clearValue
        hostVisible = Except.error Failure.precondition ↔ pixelFormat = FORMAT_UNDEFINED)
    ∧ (pixelFormat ≠ FORMAT_UNDEFINED →
        createTexture1d u rt s width pixelFormat usage sampleCount clearValue hostVisible
          = createTexture u rt s TYPE_1D width 1 1 1 pixelFormat usage sampleCount clearValue
              hostVisible none
        ∧ createTexture2d k u rt s width height mipLevels pixelFormat usage sampleCount
            clearValue hostVisible
          = createTexture u rt s TYPE_2D width height 1
              (if mipLevels ≥ k.GP_GRAPHICS_MIP_LEVELS_MAX then computeMipLevels width height
                else mipLevels)
              pixelFormat usage sampleCount clearValue hostVisible none
        ∧ createTexture3d u rt s width height depth pixelFormat usage sampleCount clearValue
            hostVisible
          = createTexture u rt s TYPE_3D width height depth 1 pixelFormat usage sampleCount
              clearValue hostVisible none)
    ∧ (createTexture_resourceDesc u TYPE_1D width 1 1 1 pixelFormat usage sampleCount).Dimension
        = D3D12_RESOURCE_DIMENSION_TEXTURE1D
    ∧ (createTexture_resourceDesc u TYPE_2D width height 1 mipLevels pixelFormat usage
        sampleCount).Dimension = D3D12_RESOURCE_DIMENSION_TEXTURE2D
    ∧ (createTexture_resourceDesc u TYPE_3D width height depth 1 pixelFormat usage
        sampleCount).Dimension = D3D12_RESOURCE_DIMENSION_TEXTURE3D := by
  refine ⟨?_, ?_, ?_, fun hne => ⟨?_, ?_, ?_⟩, rfl, rfl, rfl⟩
  · rw [createTexture1d_eq]
    by_cases hf : pixelFormat = FORMAT_UNDEFINED
    · simp [hf]
    · rw [if_neg hf]
      exact ⟨fun h => absurd h (createTexture_not_precondition _ _ _ _ _ _ _ _ _ _ _ _ _ _),
        fun h => absurd h hf⟩
  · rw [createTexture2d_eq]
    by_cases hf : pixelFormat = FORMAT_UNDEFINED
    · simp [hf]
    · rw [if_neg hf]
      exact ⟨fun h => absurd h (createTexture_not_precondition _ _ _ _ _ _ _ _ _ _ _ _ _ _),
        fun h => absurd h hf⟩
  · rw [createTexture3d_eq]
    by_cases hf : pixelFormat = FORMAT_UNDEFINED
    · simp [hf]
    · rw [if_neg hf]
      exact ⟨fun h => absurd h (createTexture_not_precondition _ _ _ _ _ _ _ _ _ _ _ _ _ _),
        fun h => absurd h hf⟩
  · rw [createTexture1d_eq, if_neg hne]
  · rw [createTexture2d_eq, if_neg hne]
  · rw [createTexture3d_eq, if_neg hne]

/-- The value of `toSamples`: 16 on the five enumerators, 1 on every other value. -/
theorem toSamples_eq (sampleCount : SampleCount) :
    toSamples sampleCount = if sampleCount.isEnumerated then 16 else 1 := by
  cases sampleCount <;> rfl

/-- C19: no case of the switch of `toSamples` ends in `break`, so the last assignment
is the effective one: `toSamples` is 16 on each of the five enumerators and 1 on any
value that is none of them; the native descriptor that `createTexture` builds
therefore has sample count 16 whenever the sample-count argument is an enumerator, and
that descriptor is the one of the allocation when no backing is supplied. -/
theorem toSamples_last_case (u : TextureUsage) (rt : Backend) (s : GraphicsD3D12)
    (type : TextureType) (width height depth mipLevels : Nat) (pixelFormat : Format)
    (usage : Nat) (sampleCount : SampleCount) (clearValue : ClearValue) (hostVisible : Bool) :
    toSamples SAMPLE_COUNT_1X = 16 ∧ toSamples SAMPLE_COUNT_2X = 16
    ∧ toSamples SAMPLE_COUNT_4X = 16 ∧ toSamples SAMPLE_COUNT_8X = 16
    ∧ toSamples SAMPLE_COUNT_16X = 16
    ∧ (∀ raw : Nat, toSamples (SampleCount.other raw) = 1)
    ∧ (createTexture_resourceDesc u type width height depth mipLevels pixelFormat usage
        sampleCount).SampleDescCount = (if sampleCount.isEnumerated then 16 else 1)
    ∧ (∀ (t : TextureD3D12) (s' : GraphicsD3D12),
        createTexture u rt s type width height depth mipLevels pixelFormat usage sampleCount
            clearValue hostVisible none = Except.ok (t, s') →
          ∃ desc states, s'.calls = s.calls ++
              [Call.CreateCommittedResource D3D12_HEAP_TYPE_DEFAULT desc states]
            ∧ desc.SampleDescCount = (if sampleCount.isEnumerated then 16 else 1)) := by
  refine ⟨rfl, rfl, rfl, rfl, rfl, fun _ => rfl, toSamples_eq sampleCount, fun t s' h => ?_⟩
  have hok := createTexture_ok _ _ _ _ _ _ _ _ _ _ _ _ _ _ _ _ h
  exact ⟨_, _, hok.2.2.2.2 rfl, toSamples_eq sampleCount⟩

/-! ## Termination with a result -/

/-- A fold whose body never fails returns. -/
theorem foldlM_except_returns {α β ε : Type} (f : β → α → Except ε β)
    (hf : ∀ b a, ∃ b', f b a = Except.ok b') :
    ∀ (l : List α) (b : β), ∃ b', l.foldlM f b = Except.ok b' := by
  intro l
  induction l with
  | nil => exact fun b => ⟨b, rfl⟩
  | cons a rest ih =>
    intro b
    obtain ⟨b1, hb1⟩ := hf b a
    obtain ⟨b', hb'⟩ := ih b1
    exact ⟨b', by rw [List.foldlM_cons, hb1]; exact hb'⟩

/-- With a swapchain that hands out its images, `createSwapchainImages` returns. -/
theorem createSwapchainImages_returns (k : GraphicsConstants) (u : TextureUsage)
    (rt : Backend) (s : GraphicsD3D12)
    (hbuffer : ∀ calls i, (rt.GetBuffer calls i).isSome = true) :
    ∃ s' textures, createSwapchainImages k u rt s = Except.ok (s', textures) := by
  have hbody : ∀ (l : SwapchainImagesLoop) (i : Nat),
      ∃ l', createSwapchainImages_body u rt l i = Except.ok l' := by
    intro l i
    unfold createSwapchainImages_body
    simp only
    cases hb : rt.GetBuffer l.device.calls i with
    | none => exact absurd hb (Option.ne_none_iff_isSome.mpr (hbuffer _ _))
    | some image => exact ⟨_, rfl⟩
  unfold createSwapchainImages
  simp only
  obtain ⟨l', hl'⟩ := foldlM_except_returns (createSwapchainImages_body u rt) hbody
    (List.range k.GP_GRAPHICS_SWAPCHAIN_IMAGE_COUNT)
    { device := { s with
        swapchainImagesViewDescriptorSize := rt.GetDescriptorHandleIncrementSize
        calls := s.calls ++
          [Call.GetDescriptorHandleIncrementSize, Call.GetCPUDescriptorHandleForHeapStart] }
      swapchainImageViewHandle := rt.GetCPUDescriptorHandleForHeapStart
      colorAttachments := []
      depthStencilAttachments := [] }
  rw [hl']
  exact ⟨_, _, rfl⟩

theorem onInitialize_device_returns (fx : Factory) (_DEBUG : Bool) (s : GraphicsD3D12)
    (hfx : fx.Answers) : ∃ s' locals, onInitialize_device fx _DEBUG s = Except.ok (s', locals) := by
  unfold onInitialize_device
  simp only
  split
  · rename_i hnone
    exact absurd hnone (Option.ne_none_iff_isSome.mpr (hfx.factory _))
  · split
    · rename_i hnone
      exact absurd hnone (Option.ne_none_iff_isSome.mpr (hfx.device _))
    · split
      · rename_i hnone
        exact absurd hnone (Option.ne_none_iff_isSome.mpr hfx.queue)
      · split
        · rename_i hnone
          exact absurd hnone (Option.ne_none_iff_isSome.mpr hfx.adapter)
        · split
          · rename_i hnone
            exact absurd hnone (Option.ne_none_iff_isSome.mpr hfx.output)
          · exact ⟨_, _, rfl⟩

theorem onInitialize_displayModes_returns (fx : Factory) (s : GraphicsD3D12)
    (locals : InitLocals) (hfx : fx.Answers) :
    ∃ s', onInitialize_displayModes fx s locals = Except.ok s' := by
  obtain ⟨count, hcount, hpos⟩ := hfx.modeCount
  unfold onInitialize_displayModes
  rw [hcount]
  simp only
  rw [if_neg (by omega)]
  split
  · rename_i hnone
    exact absurd hnone (Option.ne_none_iff_isSome.mpr hfx.modes)
  · exact ⟨_, rfl⟩

theorem onInitialize_swapchain_returns (k : GraphicsConstants) (rt : Backend) (fx : Factory)
    (s : GraphicsD3D12) (locals : InitLocals) (hfx : fx.Answers) :
    ∃ s', onInitialize_swapchain k rt fx s locals = Except.ok s' := by
  unfold onInitialize_swapchain
  simp only
  split
  · rename_i hnone
    exact absurd hnone (Option.ne_none_iff_isSome.mpr (hfx.swapchain _ _))
  · split
    · rename_i hnone
      exact absurd hnone (Option.ne_none_iff_isSome.mpr (hfx.swapchain4 _))
    · split
      · rename_i hnone
        exact absurd hnone (Option.ne_none_iff_isSome.mpr (hfx.heap _))
      · exact ⟨_, rfl⟩

/-- With a runtime that answers every call, `onInitialize` returns a device. -/
theorem onInitialize_returns (k : GraphicsConstants) (u : TextureUsage) (rt : Backend)
    (fx : Factory) (_DEBUG : Bool) (config : Config) (s : GraphicsD3D12)
    (window connection : Nat) (hfx : fx.Answers)
    (hbuffer : ∀ calls i, (rt.GetBuffer calls i).isSome = true) :
    ∃ s', onInitialize k u rt fx _DEBUG config s window connection = Except.ok s' := by
  unfold onInitialize
  by_cases hinit : s.initialized = true
  · rw [if_pos hinit]
    exact ⟨s, rfl⟩
  · rw [if_neg hinit]
    simp only
    obtain ⟨s2, locals, h2⟩ := onInitialize_device_returns fx _DEBUG
      (onInitialize_config config s window) hfx
    rw [h2]
    simp only
    obtain ⟨s3, h3⟩ := onInitialize_displayModes_returns fx s2 locals hfx
    rw [h3]
    simp only
    obtain ⟨s4, h4⟩ := onInitialize_swapchain_returns k rt fx s3 locals hfx
    rw [h4]
    simp only
    obtain ⟨s5, textures, h5⟩ := createSwapchainImages_returns k u rt s4 hbuffer
    rw [h5]
    exact ⟨_, rfl⟩

theorem sampleFactory_answers : sampleFactory.Answers where
  factory := fun _ => rfl
  device := fun _ => rfl
  queue := rfl
  adapter := rfl
  output := rfl
  modeCount := ⟨3, rfl, by decide⟩
  modes := rfl
  swapchain := fun _ _ => rfl
  swapchain4 := fun _ => rfl
  heap := fun _ => rfl

/-! ## Claims on ownership -/

/-- An invariant of the body of a fold that may fail holds of the result of the fold. -/
theorem foldlM_except_invariant {α β ε : Type} (f : β → α → Except ε β) (P : β → Prop)
    (hf : ∀ b a b', P b → f b a = Except.ok b' → P b') :
    ∀ (l : List α) (b b' : β), P b → l.foldlM f b = Except.ok b' → P b' := by
  intro l
  induction l with
  | nil =>
    intro b b' hb h
    simp only [List.foldlM_nil, pure, Except.pure, Except.ok.injEq] at h
    exact h ▸ hb
  | cons a rest ih =>
    intro b b' hb h
    rw [List.foldlM_cons] at h
    cases hfa : f b a with
    | error e => rw [hfa] at h; exact absurd h (by simp [bind, Except.bind])
    | ok b1 =>
      rw [hfa] at h
      exact ih b1 b' (hf b a b1 hb hfa) h

/-- A texture that `createTexture` builds over a supplied resource is borrowed, and the
device is returned as it was. -/
theorem createTexture_supplied (u : TextureUsage) (rt : Backend) (s : GraphicsD3D12)
    (type : TextureType) (width height depth mipLevels : Nat) (pixelFormat : Format)
    (usage : Nat) (sampleCount : SampleCount) (clearValue : ClearValue) (hostVisible : Bool)
    (r : Nat) (t : TextureD3D12) (s' : GraphicsD3D12)
    (h : createTexture u rt s type width height depth mipLevels pixelFormat usage sampleCount
      clearValue hostVisible (some r) = Except.ok (t, s')) :
    t.isBorrowed = true ∧ t.resource = some r ∧ s' = s := by
  obtain ⟨-, -, howned, hres, -⟩ := createTexture_ok _ _ _ _ _ _ _ _ _ _ _ _ _ _ _ _ h
  obtain ⟨hr, hs⟩ := hres r rfl
  refine ⟨?_, hr, hs⟩
  simp [TextureD3D12.isBorrowed, howned, hr]

theorem createSwapchainImages_body_inv (u : TextureUsage) (rt : Backend) (s0 : GraphicsD3D12)
    (l : SwapchainImagesLoop) (i : Nat) (l' : SwapchainImagesLoop)
    (hl : l.Inv s0) (h : createSwapchainImages_body u rt l i = Except.ok l') : l'.Inv s0 := by
  obtain ⟨hframe, ⟨extra, hcalls, hextra⟩, htex⟩ := hl
  unfold createSwapchainImages_body at h
  simp only at h
  split at h
  · exact absurd h (by simp)
  · rename_i image himage
    split at h
    · exact absurd h (by simp)
    · rename_i colorAttachment s1 hcolor
      split at h
      · exact absurd h (by simp)
      · rename_i depthStencilAttachment s2 hdepth
        obtain ⟨hb1, -, hs1⟩ := createTexture_supplied _ _ _ _ _ _ _ _ _ _ _ _ _ _ _ _ hcolor
        subst hs1
        obtain ⟨hb2, -, hs2⟩ := createTexture_supplied _ _ _ _ _ _ _ _ _ _ _ _ _ _ _ _ hdepth
        subst hs2
        simp only [Except.ok.injEq] at h
        subst h
        refine ⟨?_, ⟨extra ++ [Call.GetBuffer i,
          Call.CreateRenderTargetView (some image) l.swapchainImageViewHandle], ?_, ?_⟩, ?_⟩
        · simpa using hframe
        · simp only [hcalls, List.append_assoc]
        · rw [List.filter_append, hextra]
          rfl
        · intro t ht
          simp only [List.mem_append, List.mem_singleton] at ht
          rcases ht with (ht | rfl) | (ht | rfl)
          · exact htex t (List.mem_append_left _ ht)
          · exact hb1
          · exact htex t (List.mem_append_right _ ht)
          · exact hb2

/-- What `createSwapchainImages` returns when it returns: every texture it created is
borrowed, the trace has grown at its end without any allocation, and of the device
only the image handles, the descriptor size, the slot index and the trace may have
changed. -/
theorem createSwapchainImages_ok (k : GraphicsConstants) (u : TextureUsage) (rt : Backend)
    (s s' : GraphicsD3D12) (textures : List TextureD3D12)
    (h : createSwapchainImages k u rt s = Except.ok (s', textures)) :
    (∀ t ∈ textures, t.isBorrowed = true)
    ∧ (∃ extra, s'.calls = s.calls ++ extra ∧ extra.filter Call.isAllocation = [])
    ∧ { s' with
        swapchainImages := s.swapchainImages
        swapchainImagesViewDescriptorSize := s.swapchainImagesViewDescriptorSize
        swapchainImageIndex := s.swapchainImageIndex
        calls := s.calls } = s := by
  unfold createSwapchainImages at h
  simp only at h
  split at h
  · exact absurd h (by simp)
  · rename_i l hfold
    simp only [Except.ok.injEq, Prod.mk.injEq] at h
    obtain ⟨rfl, rfl⟩ := h
    have hinv := foldlM_except_invariant (createSwapchainImages_body u rt)
      (SwapchainImagesLoop.Inv
        { s with
          swapchainImagesViewDescriptorSize := rt.GetDescriptorHandleIncrementSize
          calls := s.calls ++
            [Call.GetDescriptorHandleIncrementSize, Call.GetCPUDescriptorHandleForHeapStart] })
      (fun b a b' hb hfa => createSwapchainImages_body_inv u rt _ b a b' hb hfa)
      _ _ l ⟨rfl, ⟨[], by simp, rfl⟩, by simp⟩ hfold
    obtain ⟨hframe, ⟨extra, hcalls, hextra⟩, htex⟩ := hinv
    refine ⟨htex, ⟨[Call.GetDescriptorHandleIncrementSize,
      Call.GetCPUDescriptorHandleForHeapStart] ++ extra ++ [Call.GetCurrentBackBufferIndex],
      ?_, ?_⟩, ?_⟩
    · simp only [hcalls, List.append_assoc]
    · rw [List.filter_append, List.filter_append, hextra]
      rfl
    · exact congrArg (fun d : GraphicsD3D12 => { d with
        swapchainImagesViewDescriptorSize := s.swapchainImagesViewDescriptorSize
        swapchainImageIndex := s.swapchainImageIndex
        calls := s.calls }) hframe

/-- C11: for every call of `createTexture` that returns, the ownership flag of the
texture is false exactly when a native backing resource was supplied and true
otherwise; a supplied backing is the handle the texture holds, the call with it always
returns and leaves the device and its trace as they were, so nothing is allocated for
it, while without backing the one call issued is the allocation. Every texture that
`createSwapchainImages` creates over a swapchain image is borrowed, and the loop
allocates nothing; on the sample device these are the six textures over the images
10, 11 and 12. -/
theorem createTexture_ownership (k : GraphicsConstants) (u : TextureUsage) (rt : Backend)
    (s : GraphicsD3D12) (type : TextureType) (width height depth mipLevels : Nat)
    (pixelFormat : Format) (usage : Nat) (sampleCount : SampleCount) (clearValue : ClearValue)
    (hostVisible : Bool) (resource : Option Nat) :
    (∀ (t : TextureD3D12) (s' : GraphicsD3D12),
      createTexture u rt s type width height depth mipLevels pixelFormat usage sampleCount
          clearValue hostVisible resource = Except.ok (t, s') →
        (t.hostOwned = false ↔ resource.isSome = true)
        ∧ (t.hostOwned = true ↔ resource = none)
        ∧ (∀ r, resource = some r → t.resource = some r ∧ s' = s)
        ∧ (resource = none → s'.calls = s.calls ++
            [Call.CreateCommittedResource D3D12_HEAP_TYPE_DEFAULT
              (createTexture_resourceDesc u type width height depth mipLevels pixelFormat usage
                sampleCount) (toResourceStates u usage)]))
    ∧ (∀ r, resource = some r →
        ∃ t, createTexture u rt s type width height depth mipLevels pixelFormat usage
          sampleCount clearValue hostVisible resource = Except.ok (t, s))
    ∧ (∀ (s' : GraphicsD3D12) (textures : List TextureD3D12),
        createSwapchainImages k u rt s = Except.ok (s', textures) →
          (∀ t ∈ textures, t.hostOwned = false ∧ t.resource.isSome = true)
          ∧ ∃ extra, s'.calls = s.calls ++ extra ∧ extra.filter Call.isAllocation = [])
    ∧ ((∀ calls i, (rt.GetBuffer calls i).isSome = true) →
        ∃ s' textures, createSwapchainImages k u rt s = Except.ok (s', textures))
    ∧ (createSwapchainImages sampleConstants usageBits sampleBackend sampleDevice).map
          (fun p => p.2.map (fun t => (t.hostOwned, t.resource)))
        = Except.ok [(false, some 10), (false, some 11), (false, some 12),
            (false, some 10), (false, some 11), (false, some 12)] := by
  refine ⟨fun t s' h => ?_, fun r hr => ?_, fun s' textures h => ?_,
    createSwapchainImages_returns k u rt s, rfl⟩
  · obtain ⟨-, -, howned, hres, hnone⟩ := createTexture_ok _ _ _ _ _ _ _ _ _ _ _ _ _ _ _ _ h
    refine ⟨?_, ?_, hres, hnone⟩
    · rw [howned]; cases resource <;> simp
    · rw [howned]; cases resource <;> simp
  · subst hr
    exact ⟨_, rfl⟩
  · obtain ⟨htex, hcalls, -⟩ := createSwapchainImages_ok k u rt s s' textures h
    refine ⟨fun t ht => ?_, hcalls⟩
    have hb := htex t ht
    simpa [TextureD3D12.isBorrowed] using hb

/-! ## Claims on initialization -/

/-- On a device that is not initialized and a runtime that answers every call,
`onInitialize` does act: on the freshly constructed sample device it creates the
device, the queue and the swapchain, takes the matching mode 1 and sets both flags. -/
theorem onInitialize_first :
    (onInitialize sampleConstants usageBits sampleBackend sampleFactory true sampleConfig
        (GraphicsD3D12.construct sampleDevice) 1 0).map
        (fun s => (s.initialized, s.resized, s.width, s.height, s.displayMode, s.device,
          s.queue, s.swapchain, s.calls.length))
      = Except.ok (true, true, 1280, 720, 1, some 2, some 3, some 4, 28) := rfl

/-- The loop of `getHardwareAdapter` does find the adapter of the specification: when
there is one, the loop is left by `break` with the local `adapter` holding it. -/
theorem getHardwareAdapter_loop_finds (adapters : List DXGI_ADAPTER) (adapterIndex : Nat)
    (adapter : Option Nat) (calls : List Call) (handle : Nat)
    (h : hardwareAdapterSpec adapters = some handle) :
    (getHardwareAdapter_loop adapters adapterIndex adapter calls).1 = some handle
      ∧ (getHardwareAdapter_loop adapters adapterIndex adapter calls).2.1 = true := by
  induction adapters generalizing adapterIndex adapter calls with
  | nil => simp [hardwareAdapterSpec] at h
  | cons a rest ih =>
    unfold getHardwareAdapter_loop
    simp only
    by_cases hsoft : a.Flags &&& DXGI_ADAPTER_FLAG_SOFTWARE ≠ 0
    · rw [if_pos hsoft]
      apply ih
      have hsoft' : (a.Flags &&& DXGI_ADAPTER_FLAG_SOFTWARE == 0) = false := by simpa using hsoft
      simpa [hardwareAdapterSpec, List.find?_cons, hsoft'] using h
    · rw [if_neg hsoft]
      have hsoft' : (a.Flags &&& DXGI_ADAPTER_FLAG_SOFTWARE == 0) = true := by simpa using hsoft
      cases hsup : a.supportsD3D12
      · simp only [Bool.false_eq_true, if_false]
        apply ih
        simpa [hardwareAdapterSpec, List.find?_cons, hsoft', hsup] using h
      · simp only [if_true]
        simp [hardwareAdapterSpec, List.find?_cons, hsoft', hsup] at h
        exact ⟨congrArg some h, trivial⟩

/-- Whatever the enumeration, `getHardwareAdapter` outputs null. -/
theorem getHardwareAdapter_null (fx : Factory) (calls : List Call) :
    (getHardwareAdapter fx calls).1 = none := rfl

/-- C18, evaluated on the code: on the enumeration of a software adapter 60 followed
by the hardware adapter 61, on which a Direct3D 12 device can be created, the adapter
of the specification is 61 and the loop is left with the local `adapter` holding 61,
but `getHardwareAdapter` outputs null. -/
theorem getHardwareAdapter_outputs_null :
    sampleFactory.EnumAdapters1 = [⟨60, 2, true⟩, ⟨61, 0, true⟩]
    ∧ hardwareAdapterSpec sampleFactory.EnumAdapters1 = some 61
    ∧ (getHardwareAdapter_loop sampleFactory.EnumAdapters1 0 none []).1 = some 61
    ∧ (getHardwareAdapter sampleFactory []).1 = none
    ∧ (getHardwareAdapter sampleFactory []).1 ≠ hardwareAdapterSpec sampleFactory.EnumAdapters1 := by
  refine ⟨rfl, by decide, by decide, rfl, by decide⟩

/-! ## Claims on the display mode -/

theorem toUINT_lt (x : Int) : toUINT x < 2 ^ 32 := by
  unfold toUINT
  omega

/-- A UINT assigned to an `int` and converted back is the UINT. -/
theorem toUINT_toINT (x : Nat) : toUINT (toINT x) = x % 2 ^ 32 := by
  unfold toUINT toINT
  split <;> omega

/-- An `int` converted to UINT and assigned back is the `int`. -/
theorem toINT_toUINT (x : Int) (h : IsINT x) : toINT (toUINT x) = x := by
  unfold IsINT at h
  unfold toINT toUINT
  split <;> omega

/-- For a configured value that is not negative the comparison of line 121 is plain
equality. -/
theorem toUINT_eq_iff (n : Nat) (x : Int) (h0 : 0 ≤ x) (h1 : x < 2 ^ 32) :
    n = toUINT x ↔ (n : Int) = x := by
  unfold toUINT
  omega

/-- The loop over the display modes changes at most the width, the height and the
index of the selected mode; the width and the height keep their values as UINT, and
their values when these are values of `int`; the index is that of the first mode that
matches the current width and height, and is left as it was when no mode matches. -/
theorem onInitialize_displayModeLoop_spec (modes : List DXGI_MODE_DESC) (i : Nat)
    (s : GraphicsD3D12) :
    { onInitialize_displayModeLoop modes i s with
        width := s.width, height := s.height, displayMode := s.displayMode } = s
    ∧ toUINT (onInitialize_displayModeLoop modes i s).width = toUINT s.width
    ∧ toUINT (onInitialize_displayModeLoop modes i s).height = toUINT s.height
    ∧ (IsINT s.width → (onInitialize_displayModeLoop modes i s).width = s.width)
    ∧ (IsINT s.height → (onInitialize_displayModeLoop modes i s).height = s.height)
    ∧ ((∃ pre m post, modes = pre ++ m :: post
          ∧ (∀ x ∈ pre, ¬ x.Matches s.width s.height) ∧ m.Matches s.width s.height
          ∧ (onInitialize_displayModeLoop modes i s).displayMode = i + pre.length)
      ∨ ((∀ x ∈ modes, ¬ x.Matches s.width s.height)
          ∧ (onInitialize_displayModeLoop modes i s).displayMode = s.displayMode)) := by
  induction modes generalizing i with
  | nil =>
    exact ⟨rfl, rfl, rfl, fun _ => rfl, fun _ => rfl,
      Or.inr ⟨fun x hx => absurd hx (List.not_mem_nil x), rfl⟩⟩
  | cons mode rest ih =>
    unfold onInitialize_displayModeLoop
    by_cases hm : mode.Height = toUINT s.height ∧ mode.Width = toUINT s.width
    · rw [if_pos hm]
      obtain ⟨hh, hw⟩ := hm
      refine ⟨rfl, ?_, ?_, fun hint => ?_, fun hint => ?_,
        Or.inl ⟨[], mode, rest, rfl, fun x hx => absurd hx (List.not_mem_nil x),
          ⟨hw, hh⟩, rfl⟩⟩
      · show toUINT (toINT mode.Width) = toUINT s.width
        rw [toUINT_toINT, hw, Nat.mod_eq_of_lt (toUINT_lt s.width)]
      · show toUINT (toINT mode.Height) = toUINT s.height
        rw [toUINT_toINT, hh, Nat.mod_eq_of_lt (toUINT_lt s.height)]
      · show toINT mode.Width = s.width
        rw [hw, toINT_toUINT s.width hint]
      · show toINT mode.Height = s.height
        rw [hh, toINT_toUINT s.height hint]
    · rw [if_neg hm]
      obtain ⟨hframe, hw, hh, hwint, hhint, hsel⟩ := ih (i + 1)
      refine ⟨hframe, hw, hh, hwint, hhint, ?_⟩
      have hnot : ¬ mode.Matches s.width s.height := fun hx => hm ⟨hx.2, hx.1⟩
      rcases hsel with ⟨pre, m, post, hmodes, hpre, hmatch, hidx⟩ | ⟨hall, hidx⟩
      · refine Or.inl ⟨mode :: pre, m, post, by rw [hmodes]; rfl, ?_, hmatch, ?_⟩
        · intro x hx
          rcases List.mem_cons.mp hx with rfl | hx
          · exact hnot
          · exact hpre x hx
        · rw [hidx, List.length_cons]
          omega
      · refine Or.inr ⟨?_, hidx⟩
        intro x hx
        rcases List.mem_cons.mp hx with rfl | hx
        · exact hnot
        · exact hall x hx

/-- What the device stage of `onInitialize` returns when it returns: of the device only
the native device, the queue and the trace have changed. -/
theorem onInitialize_device_ok (fx : Factory) (_DEBUG : Bool) (s s' : GraphicsD3D12)
    (locals : InitLocals) (h : onInitialize_device fx _DEBUG s = Except.ok (s', locals)) :
    { s' with device := s.device, queue := s.queue, calls := s.calls } = s := by
  unfold onInitialize_device at h
  simp only at h
  split at h
  · exact absurd h (by simp)
  · split at h
    · exact absurd h (by simp)
    · split at h
      · exact absurd h (by simp)
      · split at h
        · exact absurd h (by simp)
        · split at h
          · exact absurd h (by simp)
          · simp only [Except.ok.injEq, Prod.mk.injEq] at h
            obtain ⟨rfl, -⟩ := h
            rfl

/-- The vector of display modes after the second call: the modes filled in, followed
by the entries that `resize` has zeroed. -/
theorem displayModes_filled (modes : List DXGI_MODE_DESC) (count : Nat) :
    (modes ++ List.replicate count (DXGI_MODE_DESC.mk 0 0)).take count
      = modes.take count ++ List.replicate (count - modes.length) (DXGI_MODE_DESC.mk 0 0) := by
  rw [List.take_append_eq_append_take, List.take_replicate]
  congr 2
  omega

/-- The entries of the vector that the loop visits are the modes filled in. -/
theorem displayModes_visited (modes : List DXGI_MODE_DESC) (count : Nat) :
    ((modes ++ List.replicate count (DXGI_MODE_DESC.mk 0 0)).take count).take
        (min modes.length count)
      = modes.take count := by
  rw [List.take_take, List.take_append_eq_append_take]
  have h : min (min modes.length count) count - modes.length = 0 := by omega
  rw [h, List.take_zero, List.append_nil]
  by_cases hc : count ≤ modes.length
  · congr 1
    omega
  · rw [List.take_of_length_le (by omega), List.take_of_length_le (by omega)]

/-- What the display-mode stage of `onInitialize` returns when it returns: of the
device only the width, the height, the list of modes, the index of the selected mode
and the trace have changed; the width and the height keep their values as UINT, and
their values when these are values of `int`; the list is not empty: it holds the modes
that the output has enumerated, as many as the count of the first call allows,
followed by zeroed entries; the index is that of the first enumerated mode that
matches the width and height of the device, or is left as it was when none matches;
the trace has grown at its end. -/
theorem onInitialize_displayModes_ok (fx : Factory) (s s' : GraphicsD3D12)
    (locals : InitLocals) (h : onInitialize_displayModes fx s locals = Except.ok s') :
    { s' with
        width := s.width
        height := s.height
        displayModes := s.displayModes
        displayMode := s.displayMode
        calls := s.calls } = s
    ∧ (toUINT s'.width = toUINT s.width ∧ toUINT s'.height = toUINT s.height
      ∧ (IsINT s.width → s'.width = s.width) ∧ (IsINT s.height → s'.height = s.height))
    ∧ s'.displayModes ≠ []
    ∧ (∃ count modes, fx.GetDisplayModeListCount = some count
        ∧ fx.GetDisplayModeList = some modes ∧ 1 ≤ count
        ∧ s'.displayModes = modes.take count ++
            List.replicate (count - modes.length) (DXGI_MODE_DESC.mk 0 0)
        ∧ ((∃ pre m post, modes.take count = pre ++ m :: post
              ∧ (∀ x ∈ pre, ¬ x.Matches s.width s.height) ∧ m.Matches s.width s.height
              ∧ s'.displayMode = pre.length)
          ∨ ((∀ x ∈ modes.take count, ¬ x.Matches s.width s.height)
              ∧ s'.displayMode = s.displayMode)))
    ∧ ∃ rest, s'.calls = s.calls ++ rest := by
  unfold onInitialize_displayModes at h
  split at h
  · exact absurd h (by simp)
  · rename_i displayModeCount hcount
    split at h
    · exact absurd h (by simp)
    · rename_i hpos
      split at h
      · exact absurd h (by simp)
      · rename_i modes hmodes
        simp only [Except.ok.injEq, displayModes_visited] at h
        obtain ⟨hframe, hw, hh, hwint, hhint, hsel⟩ := onInitialize_displayModeLoop_spec
          (modes.take displayModeCount) 0
          { s with
            displayModes := (modes ++ List.replicate displayModeCount
              (DXGI_MODE_DESC.mk 0 0)).take displayModeCount
            calls := s.calls ++ [Call.GetDisplayModeList, Call.GetDisplayModeList] }
        generalize onInitialize_displayModeLoop
          (modes.take displayModeCount) 0
          { s with
            displayModes := (modes ++ List.replicate displayModeCount
              (DXGI_MODE_DESC.mk 0 0)).take displayModeCount
            calls := s.calls ++ [Call.GetDisplayModeList, Call.GetDisplayModeList] } = r
          at h hframe hw hh hwint hhint hsel
        subst h
        have hdm := congrArg GraphicsD3D12.displayModes hframe
        have hcalls := congrArg GraphicsD3D12.calls hframe
        simp only at hdm hcalls hsel hw hh hwint hhint
        refine ⟨?_, ⟨hw, hh, hwint, hhint⟩, ?_,
          ⟨displayModeCount, modes, hcount, hmodes, by omega, ?_, ?_⟩, ?_⟩
        · exact congrArg (fun d : GraphicsD3D12 => { d with
            displayModes := s.displayModes, calls := s.calls }) hframe
        · show r.displayModes ≠ []
          rw [hdm]
          intro hnil
          have hlen := congrArg List.length hnil
          simp only [List.length_take, List.length_append, List.length_replicate,
            List.length_nil] at hlen
          omega
        · show r.displayModes = _
          rw [hdm, displayModes_filled]
        · rcases hsel with ⟨pre, m, post, hmodes', hpre, hmatch, hidx⟩ | ⟨hall, hidx⟩
          · exact Or.inl ⟨pre, m, post, hmodes', hpre, hmatch, by
              show r.displayMode = pre.length
              rw [hidx, Nat.zero_add]⟩
          · exact Or.inr ⟨hall, hidx⟩
        · exact ⟨_, by show r.calls ++ _ = _; rw [hcalls, List.append_assoc]⟩

/-- What the swapchain stage of `onInitialize` returns when it returns: the swapchain
was created with the descriptor built from the device, and of the device only the
swapchain, the slot index, the view heap and the trace have changed. -/
theorem onInitialize_swapchain_ok (k : GraphicsConstants) (rt : Backend) (fx : Factory)
    (s s' : GraphicsD3D12) (locals : InitLocals)
    (h : onInitialize_swapchain k rt fx s locals = Except.ok s') :
    { s' with
        swapchain := s.swapchain
        swapchainImageIndex := s.swapchainImageIndex
        swapchainImagesViewHeap := s.swapchainImagesViewHeap
        calls := s.calls } = s
    ∧ ∃ rest, s'.calls = s.calls ++
        Call.CreateSwapChainForHwnd s.hwnd (onInitialize_swapchainDesc k s) :: rest := by
  unfold onInitialize_swapchain at h
  simp only at h
  split at h
  · exact absurd h (by simp)
  · split at h
    · exact absurd h (by simp)
    · split at h
      · exact absurd h (by simp)
      · simp only [Except.ok.injEq] at h
        subst h
        exact ⟨rfl, _, by simp only [List.append_assoc]; rfl⟩

/-- The entry of a list at the length of a prefix of it. -/
theorem getElem?_selected {α : Type} (pre post padding : List α) (m : α) :
    (pre ++ m :: post ++ padding)[pre.length]? = some m := by
  rw [List.append_assoc, List.getElem?_append_right (le_refl _), Nat.sub_self]
  simp only [List.cons_append, List.getElem?_cons_zero]

/-- What the first `onInitialize` returns when it returns: the list of display modes
is not empty and holds the enumerated modes, the selected index is that of the first
matching one of them and 0 when none matches, the width and height are the configured
ones and the swapchain was created with them. -/
theorem onInitialize_ok (k : GraphicsConstants) (u : TextureUsage) (rt : Backend)
    (fx : Factory) (_DEBUG : Bool) (config : Config) (indeterminate s' : GraphicsD3D12)
    (window connection : Nat)
    (h : onInitialize k u rt fx _DEBUG config (GraphicsD3D12.construct indeterminate) window
      connection = Except.ok s') :
    s'.displayModes ≠ []
    ∧ (∃ count modes, fx.GetDisplayModeListCount = some count
        ∧ fx.GetDisplayModeList = some modes ∧ 1 ≤ count
        ∧ s'.displayModes = modes.take count ++
            List.replicate (count - modes.length) (DXGI_MODE_DESC.mk 0 0)
        ∧ ((∃ pre m post, modes.take count = pre ++ m :: post
              ∧ (∀ x ∈ pre, ¬ x.Matches config.width config.height)
              ∧ m.Matches config.width config.height
              ∧ s'.displayMode = pre.length)
          ∨ ((∀ x ∈ modes.take count, ¬ x.Matches config.width config.height)
              ∧ s'.displayMode = 0)))
    ∧ (toUINT s'.width = toUINT config.width ∧ toUINT s'.height = toUINT config.height
      ∧ (IsINT config.width → s'.width = config.width)
      ∧ (IsINT config.height → s'.height = config.height))
    ∧ ∃ hwnd desc, Call.CreateSwapChainForHwnd hwnd desc ∈ s'.calls
        ∧ desc.Width = toUINT config.width ∧ desc.Height = toUINT config.height := by
  unfold onInitialize at h
  rw [if_neg (by simp [GraphicsD3D12.construct])] at h
  simp only at h
  split at h
  · exact absurd h (by simp)
  · rename_i s2 locals hdevice
    split at h
    · exact absurd h (by simp)
    · rename_i s3 hmodes
      split at h
      · exact absurd h (by simp)
      · rename_i s4 hswapchain
        split at h
        · exact absurd h (by simp)
        · rename_i s5 textures himages
          simp only [Except.ok.injEq] at h
          subst h
          have f1 := onInitialize_device_ok fx _DEBUG _ s2 locals hdevice
          obtain ⟨-, ⟨uw3, uh3, iw3, ih3⟩, hne, ⟨count, modes, hc, hm, hpos, hdm3, hsel⟩, -⟩ :=
            onInitialize_displayModes_ok fx s2 s3 locals hmodes
          obtain ⟨f3, rest3, hcalls3⟩ := onInitialize_swapchain_ok k rt fx s3 s4 locals hswapchain
          obtain ⟨-, ⟨extra, hcalls5, -⟩, f5⟩ := createSwapchainImages_ok k u rt s4 s5 textures
            himages
          have w2 : s2.width = config.width := (congrArg GraphicsD3D12.width f1 :)
          have h2 : s2.height = config.height := (congrArg GraphicsD3D12.height f1 :)
          have d2 : s2.displayMode = 0 := (congrArg GraphicsD3D12.displayMode f1 :)
          have w4 : s4.width = s3.width := (congrArg GraphicsD3D12.width f3 :)
          have h4 : s4.height = s3.height := (congrArg GraphicsD3D12.height f3 :)
          have m4 : s4.displayModes = s3.displayModes := (congrArg GraphicsD3D12.displayModes f3 :)
          have d4 : s4.displayMode = s3.displayMode := (congrArg GraphicsD3D12.displayMode f3 :)
          have w5 : s5.width = s4.width := (congrArg GraphicsD3D12.width f5 :)
          have h5 : s5.height = s4.height := (congrArg GraphicsD3D12.height f5 :)
          have m5 : s5.displayModes = s4.displayModes := (congrArg GraphicsD3D12.displayModes f5 :)
          have d5 : s5.displayMode = s4.displayMode := (congrArg GraphicsD3D12.displayMode f5 :)
          rw [w2, h2, d2] at hsel
          rw [w2] at uw3 iw3
          rw [h2] at uh3 ih3
          refine ⟨?_, ⟨count, modes, hc, hm, hpos, ?_, ?_⟩,
            ⟨?_, ?_, fun hint => ?_, fun hint => ?_⟩,
            s3.hwnd, onInitialize_swapchainDesc k s3, ?_, uw3, uh3⟩
          · show s5.displayModes ≠ []
            rw [m5, m4]
            exact hne
          · show s5.displayModes = _
            rw [m5, m4]
            exact hdm3
          · show (∃ pre m post, _ = pre ++ m :: post ∧ _ ∧ _ ∧ s5.displayMode = pre.length)
              ∨ ((∀ x ∈ modes.take count, _) ∧ s5.displayMode = 0)
            rw [d5, d4]
            exact hsel
          · show toUINT s5.width = toUINT config.width
            rw [w5, w4]
            exact uw3
          · show toUINT s5.height = toUINT config.height
            rw [h5, h4]
            exact uh3
          · show s5.width = config.width
            rw [w5, w4]
            exact iw3 hint
          · show s5.height = config.height
            rw [h5, h4]
            exact ih3 hint
          · show _ ∈ s5.calls
            rw [hcalls5, hcalls3]
            simp

/-- C17, as amended: the first `onInitialize` returns whenever the runtime answers
every call. When it returns, the list of display modes is not empty: it holds the
modes that the output has enumerated (exactly these when the output enumerates as many
as it has counted). The selected index is the smallest index whose mode has both
width and height equal to the configured ones as line 121 compares them, the
configured `int` converted to UINT, and that mode is the selected entry of the list;
the index is 0 when no mode matches. The swapchain is created with the configured
width and height so converted, which are the width and height of the selected mode
when a mode matches. For configured values that are not negative the comparison is
plain equality. The width and height of the device keep the configured values, which
are values of `int`. -/
theorem onInitialize_displayMode (k : GraphicsConstants) (u : TextureUsage) (rt : Backend)
    (fx : Factory) (_DEBUG : Bool) (config : Config) (indeterminate : GraphicsD3D12)
    (window connection : Nat) :
    (∀ s' : GraphicsD3D12,
      onInitialize k u rt fx _DEBUG config (GraphicsD3D12.construct indeterminate) window
          connection = Except.ok s' →
        s'.displayModes ≠ []
        ∧ (∃ count modes, fx.GetDisplayModeListCount = some count
            ∧ fx.GetDisplayModeList = some modes ∧ 1 ≤ count
            ∧ s'.displayModes = modes.take count ++
                List.replicate (count - modes.length) (DXGI_MODE_DESC.mk 0 0)
            ∧ (modes.length = count → s'.displayModes = modes)
            ∧ ((∃ pre m post, modes.take count = pre ++ m :: post
                  ∧ (∀ x ∈ pre, ¬ x.Matches config.width config.height)
                  ∧ m.Matches config.width config.height
                  ∧ s'.displayMode = pre.length
                  ∧ s'.displayModes[s'.displayMode]? = some m)
              ∨ ((∀ x ∈ modes.take count, ¬ x.Matches config.width config.height)
                  ∧ s'.displayMode = 0)))
        ∧ (toUINT s'.width = toUINT config.width ∧ toUINT s'.height = toUINT config.height
          ∧ (IsINT config.width → s'.width = config.width)
          ∧ (IsINT config.height → s'.height = config.height))
        ∧ ∃ hwnd desc, Call.CreateSwapChainForHwnd hwnd desc ∈ s'.calls
            ∧ desc.Width = toUINT config.width ∧ desc.Height = toUINT config.height
            ∧ ∀ m : DXGI_MODE_DESC, m.Matches config.width config.height →
                m.Width = desc.Width ∧ m.Height = desc.Height)
    ∧ (0 ≤ config.width → config.width < 2 ^ 32 → 0 ≤ config.height →
        config.height < 2 ^ 32 →
        (∀ m : DXGI_MODE_DESC, m.Matches config.width config.height ↔
          ((m.Width : Int) = config.width ∧ (m.Height : Int) = config.height))
        ∧ ((toUINT config.width : Nat) : Int) = config.width
        ∧ ((toUINT config.height : Nat) : Int) = config.height)
    ∧ (fx.Answers → (∀ calls i, (rt.GetBuffer calls i).isSome = true) →
        ∃ s', onInitialize k u rt fx _DEBUG config (GraphicsD3D12.construct indeterminate)
          window connection = Except.ok s') := by
  refine ⟨fun s' h => ?_, fun hw0 hw1 hh0 hh1 => ⟨fun m => ?_, ?_, ?_⟩,
    fun hfx hbuffer => onInitialize_returns k u rt fx _DEBUG config _ window connection hfx
      hbuffer⟩
  · obtain ⟨hne, ⟨count, modes, hc, hm, hpos, hdm, hsel⟩, hdims, hwnd, desc, hcall, hdw, hdh⟩ :=
      onInitialize_ok k u rt fx _DEBUG config indeterminate s' window connection h
    refine ⟨hne, ⟨count, modes, hc, hm, hpos, hdm, fun hlen => ?_, ?_⟩, hdims, hwnd, desc,
      hcall, hdw, hdh, fun m hm => ⟨hm.1.trans hdw.symm, hm.2.trans hdh.symm⟩⟩
    · rw [hdm, hlen, Nat.sub_self, List.replicate_zero, List.append_nil]
      exact List.take_of_length_le (le_of_eq hlen)
    · rcases hsel with ⟨pre, m, post, htake, hpre, hmatch, hidx⟩ | hnone
      · refine Or.inl ⟨pre, m, post, htake, hpre, hmatch, hidx, ?_⟩
        rw [hdm, htake, hidx]
        exact getElem?_selected pre post _ m
      · exact Or.inr hnone
  · exact and_congr (toUINT_eq_iff m.Width config.width hw0 hw1)
      (toUINT_eq_iff m.Height config.height hh0 hh1)
  · exact (toUINT_eq_iff _ config.width hw0 hw1).mp rfl
  · exact (toUINT_eq_iff _ config.height hh0 hh1).mp rfl

theorem onInitialize_displayMode_witness :
    sampleFactory.Answers
    ∧ (∃ s', onInitialize sampleConstants usageBits sampleBackend sampleFactory true sampleConfig
        (GraphicsD3D12.construct sampleDevice) 1 0 = Except.ok s'
      ∧ s'.displayModes ≠ [] ∧ s'.displayMode = 1 ∧ s'.width = 1280 ∧ s'.height = 720)
    ∧ ((DXGI_MODE_DESC.mk 1280 720).Matches sampleConfig.width sampleConfig.height)
    ∧ ∃ s', onInitialize sampleConstants usageBits sampleBackend sampleFactory true sampleConfig
        (GraphicsD3D12.construct sampleDevice) 1 0 = Except.ok s' := by
  have hthm := onInitialize_displayMode sampleConstants usageBits sampleBackend sampleFactory
    true sampleConfig sampleDevice 1 0
  have hint : IsINT (1280 : Int) ∧ IsINT (720 : Int) := by
    unfold IsINT
    norm_num
  refine ⟨sampleFactory_answers, ⟨_, rfl, ?_⟩, ?_, ?_⟩
  · have h := hthm.1 _ rfl
    exact ⟨h.1, rfl, h.2.2.1.2.2.1 hint.1, h.2.2.1.2.2.2 hint.2⟩
  · exact ((hthm.2.1 (by decide) (by decide) (by decide) (by decide)).1 _).mpr ⟨rfl, rfl⟩
  · exact hthm.2.2 sampleFactory_answers (fun _ _ => rfl)

/-- The claim C17 as stated fails on the code. With the single display mode 1920 by
1080 and a configuration of 800 by 600 no mode matches, the selected index is 0, whose
mode is 1920 by 1080, and the swapchain is created with 800 by 600. With the modes 800
by 600 and 4294967295 by 4294967295 and a configuration of -1 by -1, no mode has a
width or a height equal to -1 and yet the selected index is 1, not 0: line 121 compares
after the conversion of the `int` to UINT. -/
theorem onInitialize_fallback_dimensions :
    (onInitialize sampleConstants usageBits sampleBackend
        { sampleFactory with
          GetDisplayModeListCount := some 1
          GetDisplayModeList := some [DXGI_MODE_DESC.mk 1920 1080] }
        true { sampleConfig with width := 800, height := 600 }
        (GraphicsD3D12.construct sampleDevice) 1 0).map
        (fun s => (s.displayMode, s.displayModes,
          (createdSwapchains s.calls).map (fun desc => (desc.Width, desc.Height))))
      = Except.ok (0, [DXGI_MODE_DESC.mk 1920 1080], [(800, 600)])
    ∧ ((800, 600) : Nat × Nat) ≠ (1920, 1080)
    ∧ (onInitialize sampleConstants usageBits sampleBackend
        { sampleFactory with
          GetDisplayModeListCount := some 2
          GetDisplayModeList :=
            some [DXGI_MODE_DESC.mk 800 600, DXGI_MODE_DESC.mk 4294967295 4294967295] }
        true { sampleConfig with width := -1, height := -1 }
        (GraphicsD3D12.construct sampleDevice) 1 0).map
        (fun s => (s.displayMode, s.displayModes,
          (createdSwapchains s.calls).map (fun desc => (desc.Width, desc.Height))))
      = Except.ok (1, [DXGI_MODE_DESC.mk 800 600, DXGI_MODE_DESC.mk 4294967295 4294967295],
          [(4294967295, 4294967295)])
    ∧ (∀ m ∈ [DXGI_MODE_DESC.mk 800 600, DXGI_MODE_DESC.mk 4294967295 4294967295],
        ¬ ((m.Width : Int) = -1 ∧ (m.Height : Int) = -1)) :=
  ⟨rfl, by decide, rfl, by decide⟩

/-! ## Claims on the fence values -/

theorem signalledValues_append (a b : List Call) :
    signalledValues (a ++ b) = signalledValues a ++ signalledValues b := by
  simp [signalledValues, List.filterMap_append]

/-- One call of `present()` signals the running counter and nothing else. -/
theorem present_signalledValues (k : GraphicsConstants) (s : GraphicsD3D12) :
    signalledValues (present k s).calls = signalledValues s.calls ++ [s.fenceValueCurrent] := by
  show signalledValues (s.calls ++ _) = _
  rw [signalledValues_append]
  rfl

theorem present_fenceValueCurrent (k : GraphicsConstants) (s : GraphicsD3D12) :
    (present k s).fenceValueCurrent = (s.fenceValueCurrent + 1) % 2 ^ 64 := rfl

/-- As long as the counter does not wrap, `n` calls of `present()` signal the `n`
values that follow the counter, and the counter has advanced by `n`. -/
theorem present_iterate_signalled (k : GraphicsConstants) (s : GraphicsD3D12) (n : Nat)
    (hwrap : s.fenceValueCurrent + n ≤ 2 ^ 64) :
    signalledValues ((present k)^[n] s).calls
        = signalledValues s.calls ++ List.range' s.fenceValueCurrent n
    ∧ (s.fenceValueCurrent + n < 2 ^ 64 →
        ((present k)^[n] s).fenceValueCurrent = s.fenceValueCurrent + n) := by
  induction n with
  | zero => exact ⟨by simp, fun _ => rfl⟩
  | succ n ih =>
    obtain ⟨hvalues, hcounter⟩ := ih (by omega)
    have hc := hcounter (by omega)
    rw [Function.iterate_succ_apply', present_signalledValues, present_fenceValueCurrent,
      hvalues, hc, List.range'_concat, List.append_assoc, Nat.one_mul]
    exact ⟨rfl, fun hlt => Nat.mod_eq_of_lt hlt⟩

/-- C16, as amended: over a sequence of calls of `present()` during which the 64-bit
counter does not wrap, the values signalled are the successive values of the running
counter, so each is strictly greater than every earlier one; and every call records
the value it signals for the slot that is current at the call, then increments the
counter by one modulo `2 ^ 64`. -/
theorem present_fence_values (k : GraphicsConstants) (s : GraphicsD3D12) (n : Nat)
    (hwrap : s.fenceValueCurrent + n ≤ 2 ^ 64) :
    signalledValues ((present k)^[n] s).calls
        = signalledValues s.calls ++ List.range' s.fenceValueCurrent n
    ∧ (List.range' s.fenceValueCurrent n).Pairwise (fun earlier later => earlier < later)
    ∧ (∀ i, i < n → ((present k)^[i] s).fenceValueCurrent = s.fenceValueCurrent + i)
    ∧ (∀ s1 : GraphicsD3D12,
        signalledValues (present k s1).calls
            = signalledValues s1.calls ++ [s1.fenceValueCurrent]
        ∧ (present k s1).fenceValueCurrent = (s1.fenceValueCurrent + 1) % 2 ^ 64
        ∧ (s1.swapchainImageIndex < s1.fenceValues.length →
            (present k s1).fenceValues[s1.swapchainImageIndex]?
              = some s1.fenceValueCurrent)) := by
  refine ⟨(present_iterate_signalled k s n hwrap).1, List.pairwise_lt_range' _ _,
    fun i hi => (present_iterate_signalled k s i (by omega)).2 (by omega), fun s1 => ?_⟩
  exact ⟨present_signalledValues k s1, rfl, fun hidx => List.getElem?_set_self hidx⟩

theorem present_fence_values_witness :
    sampleDevice.fenceValueCurrent + 4 ≤ 2 ^ 64
    ∧ signalledValues ((present sampleConstants)^[4] sampleDevice).calls = [1, 2, 3, 4] :=
  ⟨by decide, (present_fence_values sampleConstants sampleDevice 4 (by decide)).1⟩

/-- The claim C16 as stated fails on the code: from the counter value `2 ^ 64 - 1` two
calls of `present()` signal `2 ^ 64 - 1` and then 0, which is not greater. -/
theorem present_fence_wraps :
    signalledValues ((present sampleConstants)^[2]
        { sampleDevice with fenceValueCurrent := 2 ^ 64 - 1 }).calls
      = [2 ^ 64 - 1, 0]
    ∧ ¬ ((2 ^ 64 - 1 : Nat) < 0) :=
  ⟨rfl, by decide⟩

end gameplay
